import Mathlib

/-!
# ESPurna sensor drivers: BMX280 and EmonADC121

A shallow embedding of `code/espurna/sensors/BMX280Sensor.h` and
`code/espurna/sensors/EmonADC121Sensor.h`, followed by theorems about the
slot enumeration, the identification protocol, the timing budget and the
energy integration of the two drivers.

Conventions of the embedding:

* The `double` arithmetic of `measurementTime()` is IEEE binary64 with
  round-to-nearest-even (`Dbl`), so that its rounding is the code's; `round` is
  the C library function (nearest integer, halves away from zero).
* The sensor readings and the accumulators of the energy monitor, also
  `double` in the source, are exact rationals (`ℚ`); what is proved about them
  is which expression is stored or returned, and order.
* `unsigned char` and `unsigned long` values are natural numbers; where the
  source can wrap, the reduction modulo `2^8` or `2^32` is written out.
* Preprocessor settings (`BMX280_TEMPERATURE`, `EMON_REPORT_ENERGY`, ...)
  are fields of a configuration record, since their values live in headers
  outside the two driver files.
* Calls that leave the driver (bus discovery, the BME280 library, `delay`)
  are recorded, in order, in a ghost field `calls` of the driver state; the
  values they return are arguments of the embedded method.
-/

namespace Espurna

/-! ## Shared vocabulary -/

/-- Error states a driver leaves in `_error` (the `SENSOR_ERROR_*` constants).
Only the three codes the two drivers assign are listed; their numeric values
are declared outside the driver files and only their distinctness is used. -/
inductive SensorError where
  | OK
  | OUT_OF_RANGE
  | UNKNOWN_ID
  deriving DecidableEq, Repr

/-- Magnitude kinds returned by `type(index)` (the `MAGNITUDE_*` constants). -/
inductive Magnitude where
  | NONE
  | TEMPERATURE
  | PRESSURE
  | HUMIDITY
  | CURRENT
  | POWER_APPARENT
  | ENERGY
  deriving DecidableEq, Repr

/-- Calls made by a driver to its collaborators, in the order they happen. -/
inductive ExtCall where
  /-- The call `_begin_i2c(address, size, addresses)`: address discovery. -/
  | beginI2C (address : Nat)
  /-- The call `i2cReleaseLock(address)`. -/
  | releaseLock (address : Nat)
  /-- The call `delay(ms)`. -/
  | delay (ms : Nat)
  /-- The call `_bme->begin()`: the identification read. -/
  | bmeBegin
  /-- The call `_bme->readRegister(BME280_CTRL_MEAS_REG)`. -/
  | readCtrlMeas
  /-- The call `_bme->writeRegister(BME280_CTRL_MEAS_REG, value)`. -/
  | writeCtrlMeas (value : Nat)
  /-- The call `_bme->readTempC()`. -/
  | readTempC
  /-- The call `_bme->readFloatPressure()`. -/
  | readFloatPressure
  /-- The call `_bme->readFloatHumidity()`. -/
  | readFloatHumidity
  /-- The write of `value` to register `reg` of the ADC121 at `address`. -/
  | adcWrite (address reg value : Nat)
  /-- The base-class sampling routine `read(channel)`. -/
  | emonRead (channel : Nat)
  deriving DecidableEq, Repr

/-- C `round` on a real number: nearest integer, halves away from zero. -/
def cround (x : ℚ) : Int :=
  if 0 ≤ x then ⌊x + 1 / 2⌋ else ⌈x - 1 / 2⌉

/-! ## Binary64 arithmetic -/

/-- The value `f x`, written so that `x` is evaluated once before `f` uses it
(see `withNat_eq`). -/
def withNat {α : Type} (x : Nat) (f : Nat → α) : α :=
  match x with
  | 0 => f 0
  | n + 1 => f (n + 1)

/-- The value `f x` for an integer `x`, evaluated once (see `withInt_eq`). -/
def withInt {α : Type} (x : Int) (f : Int → α) : α :=
  match x with
  | Int.ofNat n => withNat n fun k => f (Int.ofNat k)
  | Int.negSucc n => withNat n fun k => f (Int.negSucc k)

/-- A non-negative finite `double`: the value `m * 2^e`. One value has several
such pairs; the operations below return a significand of at most `2^53`. The exponent
range (overflow, subnormal numbers) is not modelled: the doubles of this file
lie between 1/2 and `2^32`. -/
structure Dbl where
  m : Nat
  e : Int
  deriving DecidableEq, Repr

namespace Dbl

/-- The value of a double as a rational number. -/
def toRat (x : Dbl) : ℚ := (x.m : ℚ) * (2 : ℚ) ^ x.e

/-- Number of bits of `n`, counted by halving (`fuel` bounds the halvings;
`n` itself is always enough). -/
def bitLength : Nat → Nat → Nat
  | 0, _ => 0
  | fuel + 1, n => if n = 0 then 0 else bitLength fuel (n / 2) + 1

/-- Number of low bits `n` has beyond a 53-bit significand, counted by halving
(`fuel` bounds the halvings; `n` itself is always enough). -/
def excessBits : Nat → Nat → Nat
  | 0, _ => 0
  | fuel + 1, n => if n < 2 ^ 53 then 0 else excessBits fuel (n / 2) + 1

/-- Rounding of the exact value `m * 2^e` to a 53-bit significand, to nearest
with ties to the even significand. -/
def round53 (m0 : Nat) (e0 : Int) : Dbl :=
  withNat m0 fun m => withInt e0 fun e =>
  withNat (excessBits m m) fun k =>
  if k = 0 then ⟨m, e⟩
  else
    withNat (m / 2 ^ k) fun q =>
    withNat (m % 2 ^ k) fun r =>
    withNat (2 ^ (k - 1)) fun half =>
    if r > half ∨ (r = half ∧ q % 2 = 1) then ⟨q + 1, e + k⟩ else ⟨q, e + k⟩

/-- The double a decimal literal with value `n / d` denotes: the quotient is
taken to at least 55 bits, a sticky bit records a non-zero remainder, and the
result is rounded to 53 bits. -/
def ofDecimal (n d : Nat) : Dbl :=
  let s := 54 + bitLength d d
  let q := n * 2 ^ s / d
  let sticky := if n * 2 ^ s % d = 0 then 0 else 1
  round53 (2 * q + sticky) (-(s : Int) - 1)

/-- Conversion of an integer to `double`. -/
def ofNat (n : Nat) : Dbl := round53 n 0

/-- Multiplication of doubles: the exact product, rounded. -/
def mul (a b : Dbl) : Dbl := round53 (a.m * b.m) (a.e + b.e)

/-- Addition of doubles: the exact sum, rounded. -/
def add (a b : Dbl) : Dbl :=
  withInt (min a.e b.e) fun e =>
  round53 (a.m * 2 ^ (a.e - e).toNat + b.m * 2 ^ (b.e - e).toNat) e

/-- C `round` on a non-negative double, as an integer: `floor(x + 1/2)`. -/
def round (x : Dbl) : Nat :=
  withNat x.m fun m => withInt x.e fun e =>
  if 0 ≤ e then m * 2 ^ e.toNat
  else (2 * m + 2 ^ (-e).toNat) / 2 ^ ((-e).toNat + 1)

end Dbl

/-! ## BMX280 driver -/

def BMX280_CHIP_BMP280 : Nat := 0x58
def BMX280_CHIP_BME280 : Nat := 0x60

/-- Build-time settings read by the BMX280 driver. An oversampling setting of
zero disables the magnitude. -/
structure BMX280Config where
  BMX280_TEMPERATURE : Nat
  BMX280_PRESSURE : Nat
  BMX280_HUMIDITY : Nat
  BMX280_MODE : Nat
  deriving DecidableEq, Repr

/-- The `settings` member of the BME280 library object, as written by `_init`
(the constant `commInterface = I2C_MODE` is left out). -/
structure BME280Settings where
  I2CAddress : Nat
  runMode : Nat
  tStandby : Nat
  filter : Nat
  tempOverSample : Nat
  pressOverSample : Nat
  humidOverSample : Nat
  deriving DecidableEq, Repr

/-- Compensated readings the BME280 library returns at the time of a call. -/
structure BME280Readings where
  readTempC : ℚ
  readFloatPressure : ℚ
  readFloatHumidity : ℚ

/-- State of a `BMX280Sensor` object. `_dirty`, `_address`, `_count` and
`_error` are inherited members; `settings` and `t_fine` belong to the owned
BME280 object; `calls` is the ghost log of external calls. -/
structure BMX280Sensor where
  _dirty : Bool
  _address : Nat
  _count : Nat
  _error : SensorError
  _chip : Nat
  _measurement_delay : Nat
  settings : BME280Settings
  t_fine : Int
  calls : List ExtCall
  deriving DecidableEq, Repr

namespace BMX280Sensor

/-- Modelled from the spec: the inherited constructors are not in the driver
file. A driver is created with address 0, dirty, no magnitude and no error;
`_chip` and `_measurement_delay` have no initialiser in the class, so their
initial values are arbitrary (`chip0`, `delay0`). -/
def fresh (chip0 delay0 : Nat) : BMX280Sensor :=
  { _dirty := true, _address := 0, _count := 0, _error := SensorError.OK,
    _chip := chip0, _measurement_delay := delay0,
    settings := ⟨0, 0, 0, 0, 0, 0, 0⟩, t_fine := 0, calls := [] }

/-- Modelled from the spec: the inherited accessor `count()` returns the
resolved magnitude count `_count`. -/
def count (s : BMX280Sensor) : Nat := s._count

/-- Modelled from the spec: the inherited `setAddress`, which stores the
configured address and marks the driver dirty. -/
def setAddress (address : Nat) (s : BMX280Sensor) : BMX280Sensor :=
  { s with _address := address, _dirty := true }

/-- The datasheet time `t` of `measurementTime` as a real number: the sum its
statements accumulate when read in exact arithmetic. -/
def measurementT (cfg : BMX280Config) (s : BMX280Sensor) : ℚ :=
  let t : ℚ := 1.25
  let t := if cfg.BMX280_TEMPERATURE > 0 then t + 2.3 * cfg.BMX280_TEMPERATURE else t
  let t := if cfg.BMX280_PRESSURE > 0 then t + (2.3 * cfg.BMX280_PRESSURE + 0.575) else t
  let t := if cfg.BMX280_HUMIDITY > 0 then
      (if s._chip = BMX280_CHIP_BME280 then t + (2.4 * cfg.BMX280_HUMIDITY + 0.575) else t)
    else t
  t

/-- The `double t` of `measurementTime()` before the final `round`: the
statements of the source in binary64, for the oversampling settings `T`, `P`,
`H` (each converted from `int`); `bme` is the test `_chip == BMX280_CHIP_BME280`. -/
def measurementTdOf (T P H : Nat) (bme : Bool) : Dbl :=
  let t := Dbl.ofDecimal 125 100
  let t := if T > 0 then Dbl.add t (Dbl.mul (Dbl.ofDecimal 23 10) (Dbl.ofNat T)) else t
  let t := if P > 0 then
      Dbl.add t (Dbl.add (Dbl.mul (Dbl.ofDecimal 23 10) (Dbl.ofNat P)) (Dbl.ofDecimal 575 1000))
    else t
  let t := if H > 0 then
      (if bme then
        Dbl.add t (Dbl.add (Dbl.mul (Dbl.ofDecimal 24 10) (Dbl.ofNat H)) (Dbl.ofDecimal 575 1000))
      else t)
    else t
  t

/-- The `double t` of `measurementTime()` for the build-time settings and the
chip of the driver state. -/
def measurementTd (cfg : BMX280Config) (s : BMX280Sensor) : Dbl :=
  measurementTdOf cfg.BMX280_TEMPERATURE cfg.BMX280_PRESSURE cfg.BMX280_HUMIDITY
    (decide (s._chip = BMX280_CHIP_BME280))

/-- The method `measurementTime()`: `return round(t + 1)` in binary64,
converted to the 32-bit `unsigned long`. -/
def measurementTime (cfg : BMX280Config) (s : BMX280Sensor) : Nat :=
  Dbl.round (Dbl.add (measurementTd cfg s) (Dbl.ofNat 1)) % 2 ^ 32

/-- The method `_init()`. `chipId` is the value returned by `_bme->begin()`. -/
def _init (cfg : BMX280Config) (chipId : Nat) (s : BMX280Sensor) : BMX280Sensor :=
  let s := { s with
    settings := { I2CAddress := s._address, runMode := cfg.BMX280_MODE, tStandby := 0,
                  filter := 0, tempOverSample := cfg.BMX280_TEMPERATURE,
                  pressOverSample := cfg.BMX280_PRESSURE,
                  humidOverSample := cfg.BMX280_HUMIDITY } }
  let s := if cfg.BMX280_TEMPERATURE = 0 then { s with t_fine := 100000 } else s
  let s := { s with calls := s.calls ++ [ExtCall.delay 10] }
  let s := { s with _chip := chipId, calls := s.calls ++ [ExtCall.bmeBegin] }
  let s :=
    if s._chip ≠ BMX280_CHIP_BME280 ∧ s._chip ≠ BMX280_CHIP_BMP280 then
      { s with _chip := 0, calls := s.calls ++ [ExtCall.releaseLock s._address],
               _error := SensorError.UNKNOWN_ID }
    else s
  let s := if cfg.BMX280_TEMPERATURE > 0 then { s with _count := (s._count + 1) % 256 } else s
  let s := if cfg.BMX280_PRESSURE > 0 then { s with _count := (s._count + 1) % 256 } else s
  let s := if cfg.BMX280_HUMIDITY > 0 then
      (if s._chip = BMX280_CHIP_BME280 then { s with _count := (s._count + 1) % 256 } else s)
    else s
  { s with _measurement_delay := measurementTime cfg s }

/-- The method `begin()`. `found` is the address returned by the discovery
call `_begin_i2c` (0 when nothing answers), `chipId` the value returned by the
identification read. -/
def begin (cfg : BMX280Config) (found chipId : Nat) (s : BMX280Sensor) : BMX280Sensor :=
  if !s._dirty then s
  else
    let s := { s with _dirty := false }
    let s := { s with _chip := 0 }
    let s := { s with _address := found, calls := s.calls ++ [ExtCall.beginI2C s._address] }
    if s._address = 0 then s
    else _init cfg chipId s

/-- The method `type(index)`: the new state (with `_error` set) and the kind. -/
def type (cfg : BMX280Config) (s : BMX280Sensor) (index : Nat) : BMX280Sensor × Magnitude :=
  if index < s._count then
    let s := { s with _error := SensorError.OK }
    let i := 0
    if cfg.BMX280_TEMPERATURE > 0 ∧ index = i then (s, Magnitude.TEMPERATURE)
    else
      let i := if cfg.BMX280_TEMPERATURE > 0 then i + 1 else i
      if cfg.BMX280_PRESSURE > 0 ∧ index = i then (s, Magnitude.PRESSURE)
      else
        let i := if cfg.BMX280_PRESSURE > 0 then i + 1 else i
        if cfg.BMX280_HUMIDITY > 0 ∧ s._chip = BMX280_CHIP_BME280 ∧ index = i then
          (s, Magnitude.HUMIDITY)
        else ({ s with _error := SensorError.OUT_OF_RANGE }, Magnitude.NONE)
  else ({ s with _error := SensorError.OUT_OF_RANGE }, Magnitude.NONE)

/-- The method `value(index)`: the new state (with `_error` set and the sensor
read, if any, logged) and the returned number. -/
def value (cfg : BMX280Config) (bme : BME280Readings) (s : BMX280Sensor) (index : Nat) :
    BMX280Sensor × ℚ :=
  if index < s._count then
    let s := { s with _error := SensorError.OK }
    let i := 0
    if cfg.BMX280_TEMPERATURE > 0 ∧ index = i then
      ({ s with calls := s.calls ++ [ExtCall.readTempC] }, bme.readTempC)
    else
      let i := if cfg.BMX280_TEMPERATURE > 0 then i + 1 else i
      if cfg.BMX280_PRESSURE > 0 ∧ index = i then
        ({ s with calls := s.calls ++ [ExtCall.readFloatPressure] }, bme.readFloatPressure / 100)
      else
        let i := if cfg.BMX280_PRESSURE > 0 then i + 1 else i
        if cfg.BMX280_HUMIDITY > 0 ∧ s._chip = BMX280_CHIP_BME280 ∧ index = i then
          ({ s with calls := s.calls ++ [ExtCall.readFloatHumidity] }, bme.readFloatHumidity)
        else ({ s with _error := SensorError.OUT_OF_RANGE }, 0)
  else ({ s with _error := SensorError.OUT_OF_RANGE }, 0)

/-- The method `forceRead()`. `reg` is the byte returned by the read of the
mode-control register; the written value is an `uint8_t`. -/
def forceRead (reg : Nat) (s : BMX280Sensor) : BMX280Sensor :=
  let value := reg % 256
  let s := { s with calls := s.calls ++ [ExtCall.readCtrlMeas] }
  let value := ((value &&& 0xFC) + 0x01) % 256
  let s := { s with calls := s.calls ++ [ExtCall.writeCtrlMeas value] }
  { s with calls := s.calls ++ [ExtCall.delay s._measurement_delay] }

/-- The method `pre()`. -/
def pre (cfg : BMX280Config) (reg : Nat) (s : BMX280Sensor) : BMX280Sensor :=
  if s._chip = 0 then { s with _error := SensorError.UNKNOWN_ID }
  else if cfg.BMX280_MODE = 1 then forceRead reg s
  else s

/-- Number of magnitudes enabled by the settings for an identified chip:
temperature and pressure when their setting is positive, humidity when its
setting is positive and the chip is a BME280. -/
def enabledCount (cfg : BMX280Config) (chip : Nat) : Nat :=
  (if cfg.BMX280_TEMPERATURE > 0 then 1 else 0)
    + (if cfg.BMX280_PRESSURE > 0 then 1 else 0)
    + (if cfg.BMX280_HUMIDITY > 0 ∧ chip = BMX280_CHIP_BME280 then 1 else 0)

/-- Kinds enabled by the settings for an identified chip, in the declared
order temperature, pressure, humidity. -/
def enabledKinds (cfg : BMX280Config) (chip : Nat) : List Magnitude :=
  (if cfg.BMX280_TEMPERATURE > 0 then [Magnitude.TEMPERATURE] else [])
    ++ (if cfg.BMX280_PRESSURE > 0 then [Magnitude.PRESSURE] else [])
    ++ (if cfg.BMX280_HUMIDITY > 0 ∧ chip = BMX280_CHIP_BME280 then [Magnitude.HUMIDITY] else [])

/-- The datasheet time of the timing-budget formula, in the words of the
specification: 1.25, plus 2.3 T_os if temperature is enabled, plus
2.3 P_os + 0.575 if pressure is enabled, plus 2.4 H_os + 0.575 if humidity is
enabled and the chip is a BME280. -/
def budgetT (cfg : BMX280Config) (chip : Nat) : ℚ :=
  1.25
    + (if cfg.BMX280_TEMPERATURE > 0 then 2.3 * (cfg.BMX280_TEMPERATURE : ℚ) else 0)
    + (if cfg.BMX280_PRESSURE > 0 then 2.3 * (cfg.BMX280_PRESSURE : ℚ) + 0.575 else 0)
    + (if cfg.BMX280_HUMIDITY > 0 ∧ chip = BMX280_CHIP_BME280 then
        2.4 * (cfg.BMX280_HUMIDITY : ℚ) + 0.575 else 0)

/-- The timing budget in the words of the specification: `ceil(t) + 1`. -/
def budgetCeil (cfg : BMX280Config) (chip : Nat) : Int :=
  ⌈budgetT cfg chip⌉ + 1

/-- The datasheet time of the specification in microseconds, a whole number. -/
def budgetMicros (cfg : BMX280Config) (chip : Nat) : Nat :=
  1250
    + (if cfg.BMX280_TEMPERATURE > 0 then 2300 * cfg.BMX280_TEMPERATURE else 0)
    + (if cfg.BMX280_PRESSURE > 0 then 2300 * cfg.BMX280_PRESSURE + 575 else 0)
    + (if cfg.BMX280_HUMIDITY > 0 ∧ chip = BMX280_CHIP_BME280 then
        2400 * cfg.BMX280_HUMIDITY + 575 else 0)

/-- Check, for one configuration, that `measurementTime()` in milliseconds lies
between the datasheet time plus 0.5 ms and the datasheet time plus 1.5 ms;
`bme` says whether the chip is a BME280. -/
def budgetCheck (T P H : Nat) (bme : Bool) : Bool :=
  withNat (Dbl.round (Dbl.add (measurementTdOf T P H bme) (Dbl.ofNat 1)) % 2 ^ 32) fun M =>
  withNat (budgetMicros ⟨T, P, H, 0⟩ (if bme then BMX280_CHIP_BME280 else 0)) fun N =>
  decide (N + 500 ≤ 1000 * M) && decide (1000 * M ≤ N + 1500)

/-- The check `budgetCheck` for all settings below `n`: on a BME280 for every
humidity setting, on another chip (where the humidity setting is not read) for
humidity setting 0. -/
def budgetCheckAll (n : Nat) : Bool :=
  (List.range n).all fun T => (List.range n).all fun P =>
    budgetCheck T P 0 false && (List.range n).all fun H => budgetCheck T P H true

end BMX280Sensor

/-! ## EmonADC121 driver -/

def ADC121_REG_RESULT : Nat := 0x00
def ADC121_REG_CONFIG : Nat := 0x02
def ADC121_RESOLUTION : Nat := 12
def ADC121_CHANNELS : Nat := 1

/-- Build-time settings read by the EmonADC121 driver. -/
structure EmonConfig where
  EMON_REPORT_CURRENT : Bool
  EMON_REPORT_POWER : Bool
  EMON_REPORT_ENERGY : Bool
  I2C_USE_BRZO : Bool
  deriving DecidableEq, Repr

/-- Members the driver inherits from its base classes. The per-channel arrays
`_current` and `_energy` have `ADC121_CHANNELS = 1` entries; `_current0` and
`_energy0` are the entries of channel 0. `calls` is the ghost log of external
calls. -/
structure EmonSensor where
  _dirty : Bool
  _address : Nat
  _count : Nat
  _error : SensorError
  _channels : Nat
  _magnitudes : Nat
  _resolution : Nat
  _voltage : ℚ
  _current0 : ℚ
  _energy0 : ℚ
  calls : List ExtCall

/-- State of an `EmonADC121Sensor` object together with `last`, the
function-local `static unsigned long last` of `pre()`, which no other code can
reach. -/
structure EmonADC121Sensor extends EmonSensor where
  last : Nat

namespace EmonADC121Sensor

/-- Number of enabled report flags. -/
def magnitudes (cfg : EmonConfig) : Nat :=
  (if cfg.EMON_REPORT_CURRENT then 1 else 0)
    + (if cfg.EMON_REPORT_POWER then 1 else 0)
    + (if cfg.EMON_REPORT_ENERGY then 1 else 0)

/-- Modelled from the spec: the base-class constructors are not in the driver
file. A driver is created with address 0, dirty, no magnitude resolved and no
error; `_magnitudes` is the number of enabled report flags; the driver's own
constructor sets `_channels`; the accumulators and the static timestamp start
at 0. -/
def fresh (cfg : EmonConfig) (voltage : ℚ) : EmonADC121Sensor :=
  { _dirty := true, _address := 0, _count := 0, _error := SensorError.OK,
    _channels := ADC121_CHANNELS, _magnitudes := magnitudes cfg, _resolution := 0,
    _voltage := voltage, _current0 := 0, _energy0 := 0, calls := [], last := 0 }

/-- Modelled from the spec: the inherited accessor `count()` returns the
resolved magnitude count `_count`. -/
def count (s : EmonADC121Sensor) : Nat := s._count

/-- Modelled from the spec: the inherited `setAddress`, which stores the
configured address and marks the driver dirty. -/
def setAddress (address : Nat) (s : EmonADC121Sensor) : EmonADC121Sensor :=
  { s with _address := address, _dirty := true }

/-- Entry `channel` of a per-channel array whose channel-0 entry is `x0`;
there is no entry at or beyond `ADC121_CHANNELS`. -/
def channelGet (x0 : ℚ) (channel : Nat) : Option ℚ :=
  if channel < ADC121_CHANNELS then some x0 else none

/-- Difference of two `unsigned long` (32-bit) values. -/
def usub32 (a b : Nat) : Nat := (a % 2 ^ 32 + 2 ^ 32 - b % 2 ^ 32) % 2 ^ 32

/-- The method `begin()`. `found` is the address returned by the discovery
call `_begin_i2c`; `parentBegin` is the base-class method `EmonSensor::begin()`,
which is not in the driver file and acts on the inherited members only. -/
def begin (parentBegin : EmonSensor → EmonSensor) (found : Nat) (s : EmonADC121Sensor) :
    EmonADC121Sensor :=
  if !s._dirty then s
  else
    let s := { s with _dirty := false }
    let s := { s with _address := found, calls := s.calls ++ [ExtCall.beginI2C s._address] }
    if s._address = 0 then s
    else
      let s := { s with calls := s.calls ++ [ExtCall.adcWrite s._address ADC121_REG_CONFIG 0x00] }
      let s := { s with _count := s._magnitudes }
      let s := { s with _resolution := ADC121_RESOLUTION }
      let s := { s with toEmonSensor := parentBegin s.toEmonSensor }
      { s with calls := s.calls ++ [ExtCall.emonRead 0] }

/-- The method `pre()`. `sample` is the current returned by the base-class
`read(0)`; `now1` and `now2` are the values returned by the two `millis()`
calls, in order. -/
def pre (cfg : EmonConfig) (sample : ℚ) (now1 now2 : Nat) (s : EmonADC121Sensor) :
    EmonADC121Sensor :=
  if s._address = 0 then { s with _error := SensorError.UNKNOWN_ID }
  else
    let s := { s with _current0 := sample, calls := s.calls ++ [ExtCall.emonRead 0] }
    if cfg.EMON_REPORT_ENERGY then
      let s :=
        if s.last > 0 then
          { s with _energy0 :=
              s._energy0 + s._current0 * s._voltage * (usub32 now1 s.last : ℚ) / 1000 }
        else s
      { s with last := now2 % 2 ^ 32 }
    else s

/-- The method `type(index)`: the new state (with `_error` set) and the kind. -/
def type (cfg : EmonConfig) (s : EmonADC121Sensor) (index : Nat) :
    EmonADC121Sensor × Magnitude :=
  let s := { s with _error := SensorError.OK }
  let i := 0
  if cfg.EMON_REPORT_CURRENT = true ∧ index = i then (s, Magnitude.CURRENT)
  else
    let i := if cfg.EMON_REPORT_CURRENT then i + 1 else i
    if cfg.EMON_REPORT_POWER = true ∧ index = i then (s, Magnitude.POWER_APPARENT)
    else
      let i := if cfg.EMON_REPORT_POWER then i + 1 else i
      if cfg.EMON_REPORT_ENERGY = true ∧ index = i then (s, Magnitude.ENERGY)
      else ({ s with _error := SensorError.OUT_OF_RANGE }, Magnitude.NONE)

/-- The method `value(index)`. The result is `none` where the C++ has no
defined result: the integer division `index / _magnitudes` with
`_magnitudes = 0`, or an array access outside the declared channels. -/
def value (cfg : EmonConfig) (s : EmonADC121Sensor) (index : Nat) :
    Option (EmonADC121Sensor × ℚ) :=
  let s := { s with _error := SensorError.OK }
  if s._magnitudes = 0 then none
  else
    let channel := (index / s._magnitudes) % 256
    let i := 0
    if cfg.EMON_REPORT_CURRENT = true ∧ index = i then
      (channelGet s._current0 channel).map (fun v => (s, v))
    else
      let i := if cfg.EMON_REPORT_CURRENT then i + 1 else i
      if cfg.EMON_REPORT_POWER = true ∧ index = i then
        (channelGet s._current0 channel).map (fun v => (s, v * s._voltage))
      else
        let i := if cfg.EMON_REPORT_POWER then i + 1 else i
        if cfg.EMON_REPORT_ENERGY = true ∧ index = i then
          (channelGet s._energy0 channel).map (fun v => (s, v))
        else some ({ s with _error := SensorError.OUT_OF_RANGE }, 0)

/-- The method `readADC(channel)`. `hi` and `lo` are the two bytes the bus
returns, in order; the result is an `unsigned int`. With `I2C_USE_BRZO` the low
byte is combined with bitwise OR, otherwise with addition. -/
def readADC (cfg : EmonConfig) (_channel : Nat) (hi lo : Nat) : Nat :=
  if cfg.I2C_USE_BRZO then
    let value := ((hi &&& 0x0F) <<< 8) % 2 ^ 32
    (value ||| lo) % 2 ^ 32
  else
    let value := ((hi &&& 0x0F) <<< 8) % 2 ^ 32
    (value + lo) % 2 ^ 32

/-- The channel-0 quantity of a magnitude kind: the stored current, the stored
current times the configured voltage, or the energy accumulator. -/
def quantity (s : EmonADC121Sensor) : Magnitude → ℚ
  | Magnitude.CURRENT => s._current0
  | Magnitude.POWER_APPARENT => s._current0 * s._voltage
  | Magnitude.ENERGY => s._energy0
  | _ => 0

/-- A run of `pre()` calls; each poll gives the sampled current and the two
clock readings of that call. -/
def preSeq (cfg : EmonConfig) (polls : List (ℚ × Nat × Nat)) (s : EmonADC121Sensor) :
    EmonADC121Sensor :=
  polls.foldl (fun st p => pre cfg p.1 p.2.1 p.2.2 st) s

/-- Example settings: all three report flags on, bus back end `Wire`. -/
def allOn : EmonConfig := ⟨true, true, true, false⟩

/-- Example history: a driver at 230 V finds address 0x50 in its first
`begin()` and is polled once at clock 1000 with a sampled current of 2 A. -/
def afterFirstPoll (parentBegin : EmonSensor → EmonSensor) : EmonADC121Sensor :=
  pre allOn 2 1000 1000 (begin parentBegin 0x50 (fresh allOn 230))

/-- Example history, continued: the address is changed to 0x51 (marking the
driver dirty) and `begin()` runs again, finding 0x51. -/
def afterRebegin (parentBegin : EmonSensor → EmonSensor) : EmonADC121Sensor :=
  begin parentBegin 0x51 (setAddress 0x51 (afterFirstPoll parentBegin))

end EmonADC121Sensor

/-! ## Theorems: binary64 arithmetic -/

/-- The function `withNat` only fixes the order of evaluation. -/
theorem withNat_eq {α : Type} (x : Nat) (f : Nat → α) : withNat x f = f x := by
  cases x <;> rfl

/-- The function `withInt` only fixes the order of evaluation. -/
theorem withInt_eq {α : Type} (x : Int) (f : Int → α) : withInt x f = f x := by
  cases x <;> simp [withInt, withNat_eq]

namespace Dbl

/-- Rounding to 53 bits, with the evaluation order left out. -/
theorem round53_eq (m : Nat) (e : Int) :
    round53 m e =
      if excessBits m m = 0 then ⟨m, e⟩
      else if m % 2 ^ excessBits m m > 2 ^ (excessBits m m - 1) ∨
          (m % 2 ^ excessBits m m = 2 ^ (excessBits m m - 1) ∧
            m / 2 ^ excessBits m m % 2 = 1) then
        ⟨m / 2 ^ excessBits m m + 1, e + excessBits m m⟩
      else ⟨m / 2 ^ excessBits m m, e + excessBits m m⟩ := by
  simp only [round53, withNat_eq, withInt_eq]

/-- A significand below `2^53` is not rounded: such integers convert exactly. -/
theorem round53_exact (m : Nat) (e : Int) (h : m < 2 ^ 53) : round53 m e = ⟨m, e⟩ := by
  have hk : excessBits m m = 0 := by
    cases m with
    | zero => rfl
    | succ n => simp only [excessBits, if_pos h]
  rw [round53_eq, if_pos hk]

/-- The integer `Dbl.round` returns is C `round` of the value of the double. -/
theorem round_eq_cround (x : Dbl) : (round x : Int) = cround x.toRat := by
  have hx : (0 : ℚ) ≤ x.toRat := by
    unfold toRat
    positivity
  unfold cround
  rw [if_pos hx]
  symm
  rw [Int.floor_eq_iff]
  simp only [round, withNat_eq, withInt_eq, toRat]
  by_cases he : 0 ≤ x.e
  · obtain ⟨n, hn⟩ := Int.eq_ofNat_of_zero_le he
    rw [if_pos he, hn]
    simp only [Int.toNat_ofNat, zpow_natCast]
    push_cast
    constructor <;> linarith
  · rw [if_neg he]
    obtain ⟨n, hn⟩ := Int.exists_eq_neg_ofNat (le_of_lt (not_le.mp he))
    rw [hn]
    simp only [neg_neg, Int.toNat_ofNat, zpow_neg, zpow_natCast]
    have hpos : (0 : ℚ) < 2 ^ (n + 1) := by positivity
    have hdm := Nat.div_add_mod (2 * x.m + 2 ^ n) (2 ^ (n + 1))
    have hlt := Nat.mod_lt (2 * x.m + 2 ^ n) (show 0 < 2 ^ (n + 1) by positivity)
    generalize (2 * x.m + 2 ^ n) / 2 ^ (n + 1) = q at hdm ⊢
    generalize (2 * x.m + 2 ^ n) % 2 ^ (n + 1) = r at hdm hlt
    have hdmq : ((2 ^ (n + 1) * q + r : Nat) : ℚ) = ((2 * x.m + 2 ^ n : Nat) : ℚ) := by
      rw [hdm]
    have hltq : ((r : Nat) : ℚ) < ((2 ^ (n + 1) : Nat) : ℚ) := by
      exact_mod_cast hlt
    have hge : (0 : ℚ) ≤ (r : ℚ) := Nat.cast_nonneg _
    push_cast at hdmq hltq
    have hval : (x.m : ℚ) * (2 ^ n)⁻¹ + 1 / 2
        = ((2 : ℚ) * x.m + 2 ^ n) / 2 ^ (n + 1) := by
      field_simp
      ring
    rw [hval]
    simp only [Int.cast_natCast]
    constructor
    · rw [le_div_iff₀ hpos]
      linarith
    · rw [div_lt_iff₀ hpos]
      linarith

/-- The four decimal literals of `measurementTime()` as doubles: 1.25 is
`0x1.4p+0`, 2.3 is `0x1.2666666666666p+1`, 2.4 is `0x1.3333333333333p+1` and
0.575 is `0x1.2666666666666p-1`. -/
theorem literal_doubles :
    ofDecimal 125 100 = ⟨5629499534213120, -52⟩ ∧
    ofDecimal 23 10 = ⟨5179139571476070, -51⟩ ∧
    ofDecimal 24 10 = ⟨5404319552844595, -51⟩ ∧
    ofDecimal 575 1000 = ⟨5179139571476070, -53⟩ := by
  decide!

end Dbl

/-! ## Theorems: BMX280 slot enumeration -/

namespace BMX280Sensor

/-- After a `begin()` that finds an address, the chip field is the identified
chip when it is one of the two known ones. -/
theorem begin_chip_of_identified (cfg : BMX280Config) (found chipId : Nat) (s : BMX280Sensor)
    (hd : s._dirty = true) (hf : found ≠ 0)
    (hc : chipId = BMX280_CHIP_BMP280 ∨ chipId = BMX280_CHIP_BME280) :
    (begin cfg found chipId s)._chip = chipId := by
  rcases hc with hc | hc <;>
    simp [begin, _init, hd, hf, hc, BMX280_CHIP_BMP280, BMX280_CHIP_BME280] <;>
    split_ifs <;> rfl

/-- After a `begin()` that finds an address and identifies a chip, the count is
the previous count plus the number of enabled magnitudes, modulo 256. -/
theorem begin_count_of_identified (cfg : BMX280Config) (found chipId : Nat) (s : BMX280Sensor)
    (hd : s._dirty = true) (hs : s._count < 256) (hf : found ≠ 0)
    (hc : chipId = BMX280_CHIP_BMP280 ∨ chipId = BMX280_CHIP_BME280) :
    (begin cfg found chipId s)._count = (s._count + enabledCount cfg chipId) % 256 := by
  rcases hc with hc | hc <;>
    simp [begin, _init, enabledCount, hd, hf, hc, BMX280_CHIP_BMP280, BMX280_CHIP_BME280] <;>
    split_ifs <;> simp_all <;> omega

/-- In a state whose count is the number of enabled magnitudes of its chip,
`type` answers OK with a kind other than NONE below the count. -/
theorem type_ok_of_enabledCount (cfg : BMX280Config) (s : BMX280Sensor)
    (h : s._count = enabledCount cfg s._chip) (i : Nat) (hi : i < s._count) :
    (type cfg s i).1._error = SensorError.OK ∧ (type cfg s i).2 ≠ Magnitude.NONE := by
  by_cases hT : cfg.BMX280_TEMPERATURE > 0 <;> by_cases hP : cfg.BMX280_PRESSURE > 0 <;>
    by_cases hH : cfg.BMX280_HUMIDITY > 0 <;> by_cases hC : s._chip = BMX280_CHIP_BME280 <;>
    simp only [enabledCount, hT, hP, hH, hC, if_true, if_false, and_self, and_true, and_false,
      true_and, false_and, Nat.add_zero, Nat.zero_add, Nat.reduceAdd] at h <;>
    rw [h] at hi <;>
    interval_cases i <;> simp [type, h, hT, hP, hH, hC]

/-- In a state whose count is the number of enabled magnitudes of its chip,
`type` gives different kinds at different indices below the count. -/
theorem type_injective_of_enabledCount (cfg : BMX280Config) (s : BMX280Sensor)
    (h : s._count = enabledCount cfg s._chip) (i j : Nat) (hi : i < s._count)
    (hj : j < s._count) (hij : i ≠ j) :
    (type cfg s i).2 ≠ (type cfg s j).2 := by
  by_cases hT : cfg.BMX280_TEMPERATURE > 0 <;> by_cases hP : cfg.BMX280_PRESSURE > 0 <;>
    by_cases hH : cfg.BMX280_HUMIDITY > 0 <;> by_cases hC : s._chip = BMX280_CHIP_BME280 <;>
    simp only [enabledCount, hT, hP, hH, hC, if_true, if_false, and_self, and_true, and_false,
      true_and, false_and, Nat.add_zero, Nat.zero_add, Nat.reduceAdd] at h <;>
    rw [h] at hi hj <;>
    interval_cases i <;> interval_cases j <;> simp [type, h, hT, hP, hH, hC] at hij ⊢

/-- In a state whose count is the number of enabled magnitudes of its chip,
`type` lists exactly the enabled kinds, in the order temperature, pressure,
humidity. -/
theorem type_list_of_enabledCount (cfg : BMX280Config) (s : BMX280Sensor)
    (h : s._count = enabledCount cfg s._chip) :
    (List.range s._count).map (fun i => (type cfg s i).2) = enabledKinds cfg s._chip := by
  by_cases hT : cfg.BMX280_TEMPERATURE > 0 <;> by_cases hP : cfg.BMX280_PRESSURE > 0 <;>
    by_cases hH : cfg.BMX280_HUMIDITY > 0 <;> by_cases hC : s._chip = BMX280_CHIP_BME280 <;>
    simp only [enabledCount, hT, hP, hH, hC, if_true, if_false, and_self, and_true, and_false,
      true_and, false_and, Nat.add_zero, Nat.zero_add, Nat.reduceAdd] at h <;>
    rw [h] <;>
    simp [List.range_succ, type, enabledKinds, h, hT, hP, hH, hC]

/-- The number of enabled magnitudes is at most three. -/
theorem enabledCount_le (cfg : BMX280Config) (chip : Nat) : enabledCount cfg chip ≤ 3 := by
  unfold enabledCount
  split_ifs <;> omega

/-- C1: a freshly constructed BMX280 driver, after one `begin()` in which
discovery finds an address and the chip identifies as BMP280 or BME280, has
`count()` equal to the number of enabled oversampling settings (humidity
counted only on a BME280); for every index below the count `type` sets the
error to OK and returns a kind other than NONE, different indices give
different kinds, and the kinds appear in the order temperature, pressure,
humidity. -/
theorem C1_begin_count_and_kinds (cfg : BMX280Config) (found chipId chip0 delay0 : Nat)
    (hf : found ≠ 0)
    (hc : chipId = BMX280_CHIP_BMP280 ∨ chipId = BMX280_CHIP_BME280) :
    (begin cfg found chipId (fresh chip0 delay0)).count = enabledCount cfg chipId ∧
    (∀ i, i < (begin cfg found chipId (fresh chip0 delay0)).count →
        (type cfg (begin cfg found chipId (fresh chip0 delay0)) i).1._error = SensorError.OK ∧
        (type cfg (begin cfg found chipId (fresh chip0 delay0)) i).2 ≠ Magnitude.NONE) ∧
    (∀ i j, i < (begin cfg found chipId (fresh chip0 delay0)).count →
        j < (begin cfg found chipId (fresh chip0 delay0)).count → i ≠ j →
        (type cfg (begin cfg found chipId (fresh chip0 delay0)) i).2 ≠
          (type cfg (begin cfg found chipId (fresh chip0 delay0)) j).2) ∧
    (List.range (begin cfg found chipId (fresh chip0 delay0)).count).map
        (fun i => (type cfg (begin cfg found chipId (fresh chip0 delay0)) i).2)
      = enabledKinds cfg chipId := by
  have hchip := begin_chip_of_identified cfg found chipId (fresh chip0 delay0) rfl hf hc
  have hcount := begin_count_of_identified cfg found chipId (fresh chip0 delay0) rfl
    (by simp [fresh]) hf hc
  have hle := enabledCount_le cfg chipId
  have hcount2 : (begin cfg found chipId (fresh chip0 delay0))._count = enabledCount cfg chipId := by
    rw [hcount]
    simp only [fresh, Nat.zero_add]
    omega
  have hcons : (begin cfg found chipId (fresh chip0 delay0))._count
      = enabledCount cfg (begin cfg found chipId (fresh chip0 delay0))._chip := by
    rw [hcount2, hchip]
  refine ⟨hcount2, fun i hi => type_ok_of_enabledCount cfg _ hcons i hi,
    fun i j hi hj hij => type_injective_of_enabledCount cfg _ hcons i j hi hj hij, ?_⟩
  have key := type_list_of_enabledCount cfg _ hcons
  rw [hchip] at key
  exact key

/-- C1 at the default settings (all three oversampling settings 1) on a BME280
found at address 0x76. -/
theorem C1_begin_count_and_kinds_witness :
    (0x76 : Nat) ≠ 0 ∧
    (begin ⟨1, 1, 1, 1⟩ 0x76 0x60 (fresh 0 0)).count = 3 ∧
    (List.range (begin ⟨1, 1, 1, 1⟩ 0x76 0x60 (fresh 0 0)).count).map
        (fun i => (type ⟨1, 1, 1, 1⟩ (begin ⟨1, 1, 1, 1⟩ 0x76 0x60 (fresh 0 0)) i).2)
      = [Magnitude.TEMPERATURE, Magnitude.PRESSURE, Magnitude.HUMIDITY] :=
  have h := C1_begin_count_and_kinds ⟨1, 1, 1, 1⟩ 0x76 0x60 0 0 (by decide) (Or.inr rfl)
  ⟨by decide, h.1, h.2.2.2⟩

/-! ## Theorems: BMX280 timing budget -/

/-- The datasheet time is at least 1.25 ms. -/
theorem budgetT_ge (cfg : BMX280Config) (chip : Nat) : (5 / 4 : ℚ) ≤ budgetT cfg chip := by
  unfold budgetT
  have hT : (0 : ℚ) ≤ cfg.BMX280_TEMPERATURE := Nat.cast_nonneg _
  have hP : (0 : ℚ) ≤ cfg.BMX280_PRESSURE := Nat.cast_nonneg _
  have hH : (0 : ℚ) ≤ cfg.BMX280_HUMIDITY := Nat.cast_nonneg _
  split_ifs <;> norm_num <;> linarith

/-- The delay stored by `_init` is `measurementTime()` of the resulting state. -/
theorem _init_measurement_delay (cfg : BMX280Config) (chipId : Nat) (s : BMX280Sensor) :
    (_init cfg chipId s)._measurement_delay = measurementTime cfg (_init cfg chipId s) := by
  simp only [_init, measurementTime, measurementTd]

/-- The double sums of `measurementTime()` at four configurations on a BME280:
9.399999999999999 (`0x1.2ccccccccccccp+3`) for settings 1, 1, 1, where the
result is 10; 30.499999999999996 (`0x1.e7fffffffffffp+4`) for 4, 3, 5, where
the exact time is 30.5 and the result is 31; 30.5 for 5, 2, 5, result 32; and
16.5 for 1, 2, 3, result 18. -/
theorem measurementTime_examples :
    measurementTdOf 1 1 1 true = ⟨5291729562160332, -49⟩ ∧
    measurementTime ⟨1, 1, 1, 1⟩ (begin ⟨1, 1, 1, 1⟩ 0x76 0x60 (fresh 0 0)) = 10 ∧
    measurementTdOf 4 3 5 true = ⟨8584986789675007, -48⟩ ∧
    measurementTime ⟨4, 3, 5, 1⟩ (begin ⟨4, 3, 5, 1⟩ 0x76 0x60 (fresh 0 0)) = 31 ∧
    measurementTime ⟨5, 2, 5, 1⟩ (begin ⟨5, 2, 5, 1⟩ 0x76 0x60 (fresh 0 0)) = 32 ∧
    measurementTime ⟨1, 2, 3, 1⟩ (begin ⟨1, 2, 3, 1⟩ 0x76 0x60 (fresh 0 0)) = 18 := by
  decide!

/-- On a chip other than a BME280 the humidity setting is not read. -/
theorem measurementTdOf_no_humidity (T P H : Nat) :
    measurementTdOf T P H false = measurementTdOf T P 0 false := by
  simp [measurementTdOf]

/-- The datasheet time in microseconds depends on the chip only through the BME280
test, and on the humidity setting only on a BME280. -/
theorem budgetMicros_scalar (cfg : BMX280Config) (chip : Nat) :
    budgetMicros cfg chip
      = budgetMicros ⟨cfg.BMX280_TEMPERATURE, cfg.BMX280_PRESSURE,
          if chip = BMX280_CHIP_BME280 then cfg.BMX280_HUMIDITY else 0, 0⟩
          (if decide (chip = BMX280_CHIP_BME280) = true then BMX280_CHIP_BME280 else 0) := by
  by_cases hc : chip = BMX280_CHIP_BME280
  · simp [budgetMicros, hc]
  · simp [budgetMicros, hc]

/-- The datasheet time in milliseconds is the microsecond count over 1000. -/
theorem budgetT_eq_micros (cfg : BMX280Config) (chip : Nat) :
    budgetT cfg chip = (budgetMicros cfg chip : ℚ) / 1000 := by
  unfold budgetT budgetMicros
  split_ifs <;> push_cast <;> ring

/-- For every setting from 0 to 16 and both kinds of chip the value of
`measurementTime()` passes `budgetCheck` (5202 evaluations of the binary64
computation). -/
theorem budgetCheckAll_17 : budgetCheckAll 17 = true := by
  decide!

/-- For settings from 0 to 16, in microseconds: the datasheet time plus 500 is at
most `measurementTime()` times 1000, which is at most the datasheet time plus
1500. -/
theorem measurementTime_bounds (cfg : BMX280Config) (s : BMX280Sensor)
    (hT : cfg.BMX280_TEMPERATURE ≤ 16) (hP : cfg.BMX280_PRESSURE ≤ 16)
    (hH : cfg.BMX280_HUMIDITY ≤ 16) :
    budgetMicros cfg s._chip + 500 ≤ 1000 * measurementTime cfg s ∧
    1000 * measurementTime cfg s ≤ budgetMicros cfg s._chip + 1500 := by
  have h := budgetCheckAll_17
  simp only [budgetCheckAll, List.all_eq_true, List.mem_range, Bool.and_eq_true] at h
  obtain ⟨h0, h1⟩ := h cfg.BMX280_TEMPERATURE (by omega) cfg.BMX280_PRESSURE (by omega)
  rw [budgetMicros_scalar]
  unfold measurementTime measurementTd
  by_cases hc : s._chip = BMX280_CHIP_BME280
  · have h2 := h1 cfg.BMX280_HUMIDITY (by omega)
    simp only [budgetCheck, withNat_eq, Bool.and_eq_true, decide_eq_true_eq, if_true] at h2
    simpa [hc] using h2
  · simp only [budgetCheck, withNat_eq, Bool.and_eq_true, decide_eq_true_eq] at h0
    rw [show decide (s._chip = BMX280_CHIP_BME280) = false from by simp [hc],
      measurementTdOf_no_humidity]
    simpa [hc] using h0

/-- For settings from 0 to 16, `measurementTime()` lies between the datasheet
time plus 0.5 ms and the datasheet time plus 1.5 ms. -/
theorem measurementTime_bounds_rat (cfg : BMX280Config) (s : BMX280Sensor)
    (hT : cfg.BMX280_TEMPERATURE ≤ 16) (hP : cfg.BMX280_PRESSURE ≤ 16)
    (hH : cfg.BMX280_HUMIDITY ≤ 16) :
    budgetT cfg s._chip + 1 / 2 ≤ (measurementTime cfg s : ℚ) ∧
    (measurementTime cfg s : ℚ) ≤ budgetT cfg s._chip + 3 / 2 := by
  obtain ⟨h1, h2⟩ := measurementTime_bounds cfg s hT hP hH
  have h1q : ((budgetMicros cfg s._chip + 500 : Nat) : ℚ)
      ≤ ((1000 * measurementTime cfg s : Nat) : ℚ) := by exact_mod_cast h1
  have h2q : ((1000 * measurementTime cfg s : Nat) : ℚ)
      ≤ ((budgetMicros cfg s._chip + 1500 : Nat) : ℚ) := by exact_mod_cast h2
  push_cast at h1q h2q
  rw [budgetT_eq_micros]
  constructor <;> linarith

/-- C2, counterexample: with all three oversampling settings 1 on a BME280 the
datasheet time is 9.4 ms and the specification's `ceil(t) + 1` is 11, but
`measurementTime()` returns 10, and 10 is the delay `begin()` stores. The
rounding is not near a tie: any perturbation of `t + 1` smaller than 0.1, such
as the rounding error of double arithmetic, still rounds to 10. -/
theorem C2_budget_counterexample :
    budgetT ⟨1, 1, 1, 1⟩ BMX280_CHIP_BME280 = 9.4 ∧
    budgetCeil ⟨1, 1, 1, 1⟩ BMX280_CHIP_BME280 = 11 ∧
    measurementTime ⟨1, 1, 1, 1⟩ (begin ⟨1, 1, 1, 1⟩ 0x76 0x60 (fresh 0 0)) = 10 ∧
    (begin ⟨1, 1, 1, 1⟩ 0x76 0x60 (fresh 0 0))._measurement_delay = 10 ∧
    ¬ ((measurementTime ⟨1, 1, 1, 1⟩ (begin ⟨1, 1, 1, 1⟩ 0x76 0x60 (fresh 0 0)) : Int)
        = budgetCeil ⟨1, 1, 1, 1⟩ BMX280_CHIP_BME280) ∧
    ∀ e : ℚ, |e| < 1 / 10 → cround (budgetT ⟨1, 1, 1, 1⟩ BMX280_CHIP_BME280 + 1 + e) = 10 := by
  have hT : budgetT ⟨1, 1, 1, 1⟩ BMX280_CHIP_BME280 = 9.4 := by
    norm_num [budgetT]
  have hC : budgetCeil ⟨1, 1, 1, 1⟩ BMX280_CHIP_BME280 = 11 := by
    unfold budgetCeil
    rw [hT]
    have : ⌈(9.4 : ℚ)⌉ = 10 := by
      rw [Int.ceil_eq_iff]
      constructor <;> norm_num
    omega
  have hM : measurementTime ⟨1, 1, 1, 1⟩ (begin ⟨1, 1, 1, 1⟩ 0x76 0x60 (fresh 0 0)) = 10 :=
    measurementTime_examples.2.1
  have hD : (begin ⟨1, 1, 1, 1⟩ 0x76 0x60 (fresh 0 0))._measurement_delay = 10 := by
    rw [← hM]
    exact _init_measurement_delay _ _ _
  refine ⟨hT, hC, hM, hD, ?_, ?_⟩
  · rw [hM, hC]
    decide
  · intro e he
    rw [hT]
    have he2 := abs_lt.mp he
    unfold cround
    rw [if_pos (by linarith [he2.1]), Int.floor_eq_iff]
    constructor <;> push_cast <;> linarith [he2.1, he2.2]

/-- C2, amended: for every oversampling configuration with settings from 0 to
16 and every chip, `measurementTime()`, which is `round(t + 1)` of the sum
accumulated in double arithmetic, is an integer nearest to `t + 1` for the
exact datasheet time `t` of the specification: it lies between `t + 0.5` and
`t + 1.5`; it equals `round(t + 1)` of the exact time unless `t + 1` is exactly
half-way between two integers; and it is `ceil(t)` or `ceil(t) + 1`. -/
theorem C2_measurementTime_round (cfg : BMX280Config) (s : BMX280Sensor)
    (hT : cfg.BMX280_TEMPERATURE ≤ 16) (hP : cfg.BMX280_PRESSURE ≤ 16)
    (hH : cfg.BMX280_HUMIDITY ≤ 16) :
    budgetT cfg s._chip + 1 / 2 ≤ (measurementTime cfg s : ℚ) ∧
    (measurementTime cfg s : ℚ) ≤ budgetT cfg s._chip + 3 / 2 ∧
    (Int.fract (budgetT cfg s._chip) ≠ 1 / 2 →
      (measurementTime cfg s : Int) = cround (budgetT cfg s._chip + 1)) ∧
    ⌈budgetT cfg s._chip⌉ ≤ (measurementTime cfg s : Int) ∧
    (measurementTime cfg s : Int) ≤ budgetCeil cfg s._chip := by
  obtain ⟨h1, h2⟩ := measurementTime_bounds_rat cfg s hT hP hH
  have ht := budgetT_ge cfg s._chip
  have hcast : ((measurementTime cfg s : Int) : ℚ) = (measurementTime cfg s : ℚ) := by
    norm_cast
  have h3 := Int.le_ceil (budgetT cfg s._chip)
  refine ⟨h1, h2, ?_, ?_, ?_⟩
  · intro hfract
    unfold cround
    rw [if_pos (by linarith)]
    symm
    rw [Int.floor_eq_iff, hcast]
    refine ⟨by linarith, ?_⟩
    rcases lt_or_eq_of_le h1 with hlt | heq
    · linarith
    · exfalso
      apply hfract
      rw [Int.fract_eq_iff]
      refine ⟨by norm_num, by norm_num, (measurementTime cfg s : Int) - 1, ?_⟩
      push_cast
      linarith
  · rw [Int.ceil_le, hcast]
    linarith
  · unfold budgetCeil
    have h4 : ((measurementTime cfg s : Int) : ℚ) < ((⌈budgetT cfg s._chip⌉ + 2 : Int) : ℚ) := by
      rw [hcast]
      push_cast
      linarith
    have h5 := Int.cast_lt.mp h4
    omega

/-- C2, amended, at settings 4, 3, 5 on a BME280, where the exact time is 30.5
and the double sum is 30.499999999999996: the result is 31. -/
theorem C2_measurementTime_round_witness :
    (4 : Nat) ≤ 16 ∧ (3 : Nat) ≤ 16 ∧ (5 : Nat) ≤ 16 ∧
    measurementTime ⟨4, 3, 5, 1⟩ (begin ⟨4, 3, 5, 1⟩ 0x76 0x60 (fresh 0 0)) = 31 ∧
    budgetT ⟨4, 3, 5, 1⟩ (begin ⟨4, 3, 5, 1⟩ 0x76 0x60 (fresh 0 0))._chip + 1 / 2
      ≤ (measurementTime ⟨4, 3, 5, 1⟩ (begin ⟨4, 3, 5, 1⟩ 0x76 0x60 (fresh 0 0)) : ℚ) ∧
    (measurementTime ⟨4, 3, 5, 1⟩ (begin ⟨4, 3, 5, 1⟩ 0x76 0x60 (fresh 0 0)) : Int)
      ≤ budgetCeil ⟨4, 3, 5, 1⟩ (begin ⟨4, 3, 5, 1⟩ 0x76 0x60 (fresh 0 0))._chip :=
  have h := C2_measurementTime_round ⟨4, 3, 5, 1⟩ (begin ⟨4, 3, 5, 1⟩ 0x76 0x60 (fresh 0 0))
    (by decide) (by decide) (by decide)
  ⟨by decide, by decide, by decide, measurementTime_examples.2.2.2.1, h.1, h.2.2.2.2⟩

/-! ## Theorems: BMX280 identification -/

/-- On an identification mismatch `_init` clears the chip and releases the
claimed address, whatever the settings. -/
theorem begin_mismatch_chip_released (cfg : BMX280Config) (found chipId : Nat)
    (s : BMX280Sensor) (hd : s._dirty = true) (hf : found ≠ 0)
    (h1 : chipId ≠ BMX280_CHIP_BMP280) (h2 : chipId ≠ BMX280_CHIP_BME280) :
    (begin cfg found chipId s)._chip = 0 ∧
    ExtCall.releaseLock found ∈ (begin cfg found chipId s).calls := by
  simp only [begin, _init, hd, hf]
  constructor <;> simp [h1, h2] <;> split_ifs <;> simp

/-- C3, the code at the failing input: default settings (all three
oversampling settings 1), discovery finds 0x76, the identification read
returns 0x00. `begin()` clears the chip and releases the address, but the
count is 2, and `value(0)` sets the error to OK, performs a temperature read
and returns its result. -/
theorem C3_mismatch_still_counts (bme : BME280Readings) :
    (begin ⟨1, 1, 1, 1⟩ 0x76 0x00 (fresh 0 0))._chip = 0 ∧
    ExtCall.releaseLock 0x76 ∈ (begin ⟨1, 1, 1, 1⟩ 0x76 0x00 (fresh 0 0)).calls ∧
    (begin ⟨1, 1, 1, 1⟩ 0x76 0x00 (fresh 0 0)).count = 2 ∧
    (value ⟨1, 1, 1, 1⟩ bme (begin ⟨1, 1, 1, 1⟩ 0x76 0x00 (fresh 0 0)) 0).1._error
      = SensorError.OK ∧
    (value ⟨1, 1, 1, 1⟩ bme (begin ⟨1, 1, 1, 1⟩ 0x76 0x00 (fresh 0 0)) 0).2
      = bme.readTempC ∧
    (value ⟨1, 1, 1, 1⟩ bme (begin ⟨1, 1, 1, 1⟩ 0x76 0x00 (fresh 0 0)) 0).1.calls
      = (begin ⟨1, 1, 1, 1⟩ 0x76 0x00 (fresh 0 0)).calls ++ [ExtCall.readTempC] := by
  simp [begin, _init, fresh, value, count, BMX280_CHIP_BME280, BMX280_CHIP_BMP280]

/-! ## Theorems: BMX280 out-of-range access -/

/-- C4: in every BMX280 driver state and for every index at or above
`count()`, `type(index)` returns NONE and `value(index)` returns 0; each call
sets the error to OUT_OF_RANGE, changes nothing else and performs no sensor
read (the log of external calls is unchanged). -/
theorem C4_out_of_range (cfg : BMX280Config) (bme : BME280Readings) (s : BMX280Sensor)
    (index : Nat) (h : s.count ≤ index) :
    (type cfg s index).2 = Magnitude.NONE ∧
    (type cfg s index).1 = { s with _error := SensorError.OUT_OF_RANGE } ∧
    (value cfg bme s index).2 = 0 ∧
    (value cfg bme s index).1 = { s with _error := SensorError.OUT_OF_RANGE } ∧
    (type cfg s index).1.calls = s.calls ∧
    (value cfg bme s index).1.calls = s.calls := by
  have hlt : ¬ index < s._count := Nat.not_lt.mpr h
  simp [type, value, hlt]

/-- C4 on a driver that identified a BME280 with the default settings: index 3
is out of range. -/
theorem C4_out_of_range_witness :
    (begin ⟨1, 1, 1, 1⟩ 0x76 0x60 (fresh 0 0)).count ≤ 3 ∧
    (type ⟨1, 1, 1, 1⟩ (begin ⟨1, 1, 1, 1⟩ 0x76 0x60 (fresh 0 0)) 3).2 = Magnitude.NONE ∧
    (value ⟨1, 1, 1, 1⟩ ⟨20, 101325, 40⟩ (begin ⟨1, 1, 1, 1⟩ 0x76 0x60 (fresh 0 0)) 3).2 = 0 :=
  have hc : (begin ⟨1, 1, 1, 1⟩ 0x76 0x60 (fresh 0 0)).count ≤ 3 := by
    simp [begin, _init, fresh, count, BMX280_CHIP_BME280, BMX280_CHIP_BMP280]
  have h := C4_out_of_range ⟨1, 1, 1, 1⟩ ⟨20, 101325, 40⟩
    (begin ⟨1, 1, 1, 1⟩ 0x76 0x60 (fresh 0 0)) 3 hc
  ⟨hc, h.1, h.2.2.1⟩

end BMX280Sensor

/-! ## Theorems: EmonADC121 slot enumeration -/

namespace EmonADC121Sensor

/-- A `begin()` on a dirty driver that finds an address stores `_magnitudes` as
the count, provided the base-class `begin()` leaves the count alone. -/
theorem begin_count (parentBegin : EmonSensor → EmonSensor)
    (hpb : ∀ b, (parentBegin b)._count = b._count)
    (found : Nat) (s : EmonADC121Sensor) (hd : s._dirty = true) (hf : found ≠ 0) :
    (begin parentBegin found s).count = s._magnitudes := by
  simp [begin, count, hd, hf, hpb]

/-- C5, counterexample: with all report flags on, a driver that has not found
an address has `count() = 0`, yet `type(0)` returns CURRENT and `value(0)`
answers, both leaving the error state OK; the same after a `begin()` whose
discovery returns 0. -/
theorem C5_unresolved_count_counterexample :
    (fresh allOn 230).count = 0 ∧
    (type allOn (fresh allOn 230) 0).2 = Magnitude.CURRENT ∧
    (type allOn (fresh allOn 230) 0).1._error = SensorError.OK ∧
    (value allOn (fresh allOn 230) 0).map (fun r => r.1._error) = some SensorError.OK ∧
    (begin id 0 (fresh allOn 230)).count = 0 ∧
    (type allOn (begin id 0 (fresh allOn 230)) 0).2 = Magnitude.CURRENT ∧
    (type allOn (begin id 0 (fresh allOn 230)) 0).1._error = SensorError.OK ∧
    (value allOn (begin id 0 (fresh allOn 230)) 0).map (fun r => r.1._error)
      = some SensorError.OK := by
  simp [begin, fresh, allOn, type, value, count, magnitudes, channelGet, ADC121_CHANNELS]

/-- C5, amended: in every driver state and for every index at or above the
number of enabled report flags, `type(index)` returns NONE and sets the error
to OUT_OF_RANGE, changing nothing else; and when `_magnitudes` is not 0,
`value(index)` returns 0 and sets the error to OUT_OF_RANGE, changing nothing
else. -/
theorem C5_out_of_range_by_flags (cfg : EmonConfig) (s : EmonADC121Sensor) (index : Nat)
    (h : magnitudes cfg ≤ index) :
    type cfg s index = ({ s with _error := SensorError.OUT_OF_RANGE }, Magnitude.NONE) ∧
    (s._magnitudes ≠ 0 →
      value cfg s index = some ({ s with _error := SensorError.OUT_OF_RANGE }, 0)) := by
  rcases cfg with ⟨c, p, e, b⟩
  have h0 : magnitudes ⟨c, p, e, b⟩ = 0 ∨ index ≠ 0 := by omega
  have h1 : magnitudes ⟨c, p, e, b⟩ ≤ 1 ∨ index ≠ 1 := by omega
  have h2 : magnitudes ⟨c, p, e, b⟩ ≤ 2 ∨ index ≠ 2 := by omega
  cases c <;> cases p <;> cases e <;> simp [magnitudes] at h0 h1 h2 <;>
    (constructor
     · simp [type, h0, h1, h2]
     · intro hm
       simp [value, hm, h0, h1, h2])

/-- C5, amended, at index 3 of a driver with all report flags on that found
address 0x50. -/
theorem C5_out_of_range_by_flags_witness :
    magnitudes allOn ≤ 3 ∧
    (type allOn (begin id 0x50 (fresh allOn 230)) 3).2 = Magnitude.NONE ∧
    (value allOn (begin id 0x50 (fresh allOn 230)) 3).map (fun r => r.2) = some 0 :=
  have h := C5_out_of_range_by_flags allOn (begin id 0x50 (fresh allOn 230)) 3 (by decide)
  ⟨by decide, by rw [h.1], by
    rw [h.2 (by simp [begin, fresh, magnitudes, allOn])]
    rfl⟩

/-! ## Theorems: EmonADC121 energy integration -/

/-- The 32-bit difference recovers an elapsed time below `2^32`, wrapped or not. -/
theorem usub32_add (last d : Nat) (hl : last < 2 ^ 32) (hd : d < 2 ^ 32) :
    usub32 ((last + d) % 2 ^ 32) last = d := by
  unfold usub32
  omega

/-- The method `begin()` never changes the static timestamp of `pre()`. -/
theorem begin_last (parentBegin : EmonSensor → EmonSensor) (found : Nat) (s : EmonADC121Sensor) :
    (begin parentBegin found s).last = s.last := by
  simp only [begin]
  split_ifs <;> rfl

/-- With no stored timestamp a poll leaves the energy accumulator alone. -/
theorem pre_energy_of_last_zero (cfg : EmonConfig) (sample : ℚ) (now1 now2 : Nat)
    (s : EmonADC121Sensor) (h : s.last = 0) :
    (pre cfg sample now1 now2 s)._energy0 = s._energy0 := by
  unfold pre
  split_ifs <;> simp_all

/-- With a stored timestamp, a poll that samples with energy reporting on adds
current times voltage times elapsed milliseconds over 1000. -/
theorem pre_energy_of_last_pos (cfg : EmonConfig) (sample : ℚ) (now1 now2 : Nat)
    (s : EmonADC121Sensor) (he : cfg.EMON_REPORT_ENERGY = true) (ha : s._address ≠ 0)
    (h : 0 < s.last) :
    (pre cfg sample now1 now2 s)._energy0
      = s._energy0 + sample * s._voltage * (usub32 now1 s.last : ℚ) / 1000 := by
  simp [pre, he, ha, h]

/-- A `begin()` on a dirty driver that finds an address stores it, and keeps
the voltage, provided the base-class `begin()` leaves both alone. -/
theorem begin_address_voltage (parentBegin : EmonSensor → EmonSensor)
    (hpb : ∀ b, (parentBegin b)._address = b._address ∧ (parentBegin b)._voltage = b._voltage)
    (found : Nat) (s : EmonADC121Sensor) (hd : s._dirty = true) (hf : found ≠ 0) :
    (begin parentBegin found s)._address = found ∧
    (begin parentBegin found s)._voltage = s._voltage := by
  simp [begin, hd, hf, (hpb _).1, (hpb _).2]

/-- A poll that samples keeps address and voltage and, with energy reporting
on, stores the second clock reading as the new timestamp. -/
theorem pre_last (cfg : EmonConfig) (sample : ℚ) (now1 now2 : Nat)
    (s : EmonADC121Sensor) (he : cfg.EMON_REPORT_ENERGY = true) (ha : s._address ≠ 0) :
    (pre cfg sample now1 now2 s).last = now2 % 2 ^ 32 ∧
    (pre cfg sample now1 now2 s)._address = s._address ∧
    (pre cfg sample now1 now2 s)._voltage = s._voltage := by
  simp only [pre, he, ha, if_true, if_false]
  split_ifs <;> simp

/-- In the example history, whatever the base-class `begin()` does to the
inherited members other than the address and the voltage, the poll after the
re-`begin()` integrates over the 1000 ms since the earlier poll. -/
theorem afterRebegin_pre (parentBegin : EmonSensor → EmonSensor)
    (hpb : ∀ b, (parentBegin b)._address = b._address ∧ (parentBegin b)._voltage = b._voltage) :
    (afterFirstPoll parentBegin).last = 1000 ∧
    (afterRebegin parentBegin)._address = 0x51 ∧
    (afterRebegin parentBegin)._voltage = 230 ∧
    (pre allOn 2 2000 2000 (afterRebegin parentBegin))._energy0
      = (afterRebegin parentBegin)._energy0 + 460 := by
  obtain ⟨ha0, hv0⟩ := begin_address_voltage parentBegin hpb 0x50 (fresh allOn 230) rfl (by decide)
  obtain ⟨hl1, ha1, hv1⟩ := pre_last allOn 2 1000 1000 (begin parentBegin 0x50 (fresh allOn 230))
    rfl (by rw [ha0]; decide)
  have h1 : (afterFirstPoll parentBegin).last = 1000 := hl1
  have h2 : (afterRebegin parentBegin).last = 1000 := by
    rw [afterRebegin, begin_last]
    exact h1
  obtain ⟨ha2, hv2⟩ := begin_address_voltage parentBegin hpb 0x51
    (setAddress 0x51 (afterFirstPoll parentBegin)) rfl (by decide)
  have hv3 : (afterRebegin parentBegin)._voltage = 230 := by
    rw [afterRebegin, hv2]
    show (afterFirstPoll parentBegin)._voltage = 230
    rw [afterFirstPoll, hv1, hv0]
    rfl
  refine ⟨h1, ha2, hv3, ?_⟩
  rw [pre_energy_of_last_pos allOn 2 2000 2000 _ rfl
    (by rw [show (afterRebegin parentBegin)._address = 0x51 from ha2]; decide)
    (by rw [h2]; decide), h2, hv3]
  norm_num [usub32]

/-- C6: with energy reporting on, a sampled current of 2 A on both polls, a
configured voltage of 230 V and no previous timestamp, a first `pre()` at a
non-zero clock value `t0` leaves the channel-0 energy accumulator unchanged,
and a second `pre()` 1000 ms later (clock `t0 + 1000` modulo `2^32`) increases
it by exactly 460 watt-seconds. -/
theorem C6_energy_example (cfg : EmonConfig) (s : EmonADC121Sensor) (t0 : Nat)
    (he : cfg.EMON_REPORT_ENERGY = true) (ha : s._address ≠ 0) (hv : s._voltage = 230)
    (hl : s.last = 0) (h0 : 0 < t0) (h32 : t0 < 2 ^ 32) :
    (pre cfg 2 t0 t0 s)._energy0 = s._energy0 ∧
    (pre cfg 2 ((t0 + 1000) % 2 ^ 32) ((t0 + 1000) % 2 ^ 32) (pre cfg 2 t0 t0 s))._energy0
      = (pre cfg 2 t0 t0 s)._energy0 + 460 := by
  obtain ⟨hl1, ha1, hv1⟩ := pre_last cfg 2 t0 t0 s he ha
  have hmod : t0 % 2 ^ 32 = t0 := Nat.mod_eq_of_lt h32
  refine ⟨pre_energy_of_last_zero cfg 2 t0 t0 s hl, ?_⟩
  rw [pre_energy_of_last_pos cfg 2 _ _ _ he (by rw [ha1]; exact ha) (by rw [hl1, hmod]; exact h0)]
  rw [hl1, hmod, usub32_add t0 1000 h32 (by norm_num), hv1, hv]
  norm_num

/-- C6 on a driver with all report flags on that found address 0x50, polled at
clock 5000 and 6000. -/
theorem C6_energy_example_witness :
    (pre allOn 2 5000 5000 (begin id 0x50 (fresh allOn 230)))._energy0
      = (begin id 0x50 (fresh allOn 230))._energy0 ∧
    (pre allOn 2 ((5000 + 1000) % 2 ^ 32) ((5000 + 1000) % 2 ^ 32)
        (pre allOn 2 5000 5000 (begin id 0x50 (fresh allOn 230))))._energy0
      = (pre allOn 2 5000 5000 (begin id 0x50 (fresh allOn 230)))._energy0 + 460 :=
  C6_energy_example allOn (begin id 0x50 (fresh allOn 230)) 5000 rfl
    (by simp [begin, fresh]) (by simp [begin, fresh]) (by rw [begin_last]; rfl)
    (by decide) (by norm_num)

/-- C7, counterexample: a driver at 230 V finds 0x50, is polled at clock 1000
(timestamp 1000 stored), has its address changed to 0x51 and runs `begin()`
again; the next `pre()`, at clock 2000 with 2 A sampled, adds 460 watt-seconds
to the accumulator, whether the base-class `begin()` leaves the accumulators
alone or resets them. -/
theorem C7_rebegin_counterexample :
    (afterFirstPoll id).last = 1000 ∧
    (afterRebegin id)._address = 0x51 ∧
    (pre allOn 2 2000 2000 (afterRebegin id))._energy0 = (afterRebegin id)._energy0 + 460 ∧
    (pre allOn 2 2000 2000 (afterRebegin id))._energy0 ≠ (afterRebegin id)._energy0 ∧
    (pre allOn 2 2000 2000
        (afterRebegin (fun b => { b with _energy0 := 0, _current0 := 0 })))._energy0
      = (afterRebegin (fun b => { b with _energy0 := 0, _current0 := 0 }))._energy0 + 460 := by
  obtain ⟨h1, h2, _, h4⟩ := afterRebegin_pre id (fun b => ⟨rfl, rfl⟩)
  obtain ⟨_, _, _, h5⟩ := afterRebegin_pre (fun b => { b with _energy0 := 0, _current0 := 0 })
    (fun b => ⟨rfl, rfl⟩)
  refine ⟨h1, h2, h4, ?_, h5⟩
  rw [h4]
  norm_num

/-- C7, amended: the first `pre()` after the initial `begin()` adds nothing to
the energy accumulator. A later `begin()` (after the driver is marked dirty)
does not reset the stored timestamp: the next `pre()` adds nothing only if no
timestamp was stored, and otherwise, when it samples with energy reporting on,
adds current times voltage times the 32-bit elapsed time since the stored
timestamp, over 1000. -/
theorem C7_first_poll_and_rebegin (cfg : EmonConfig) (parentBegin : EmonSensor → EmonSensor)
    (voltage sample : ℚ) (found now1 now2 : Nat) :
    (pre cfg sample now1 now2 (begin parentBegin found (fresh cfg voltage)))._energy0
      = (begin parentBegin found (fresh cfg voltage))._energy0 ∧
    ∀ (s : EmonADC121Sensor) (address : Nat),
      (begin parentBegin found (setAddress address s)).last = s.last ∧
      (s.last = 0 →
        (pre cfg sample now1 now2 (begin parentBegin found (setAddress address s)))._energy0
          = (begin parentBegin found (setAddress address s))._energy0) ∧
      (cfg.EMON_REPORT_ENERGY = true → 0 < s.last →
        (begin parentBegin found (setAddress address s))._address ≠ 0 →
        (pre cfg sample now1 now2 (begin parentBegin found (setAddress address s)))._energy0
          = (begin parentBegin found (setAddress address s))._energy0
            + sample * (begin parentBegin found (setAddress address s))._voltage
              * (usub32 now1 s.last : ℚ) / 1000) := by
  constructor
  · exact pre_energy_of_last_zero _ _ _ _ _ (by rw [begin_last]; rfl)
  · intro s address
    have hl : (begin parentBegin found (setAddress address s)).last = s.last := by
      rw [begin_last]
      rfl
    refine ⟨hl, fun h0 => ?_, fun he hpos ha => ?_⟩
    · exact pre_energy_of_last_zero _ _ _ _ _ (by rw [hl]; exact h0)
    · rw [pre_energy_of_last_pos cfg sample now1 now2 _ he ha (by rw [hl]; exact hpos), hl]

/-- C7, amended, on the example history: the poll at clock 2000 after the
re-`begin()` integrates over the time since the stored timestamp 1000. -/
theorem C7_first_poll_and_rebegin_witness :
    (afterFirstPoll id).last = 1000 ∧
    (pre allOn 2 2000 2000 (afterRebegin id))._energy0
      = (afterRebegin id)._energy0
        + 2 * (afterRebegin id)._voltage * (usub32 2000 1000 : ℚ) / 1000 := by
  have h := afterRebegin_pre id (fun b => ⟨rfl, rfl⟩)
  have hw := ((C7_first_poll_and_rebegin allOn id 230 2 0x51 2000 2000).2
    (afterFirstPoll id) 0x51).2.2 rfl
    (by rw [h.1]; decide) (by rw [← afterRebegin, h.2.1]; decide)
  rw [h.1] at hw
  exact ⟨h.1, hw⟩

/-! ## Theorems: EmonADC121 raw sample -/

/-- For a low byte below 256, `readADC` is the low nibble of the high byte
times 256 plus the low byte, on either bus back end. -/
theorem readADC_eq (cfg : EmonConfig) (channel hi lo : Nat) (hlo : lo < 256) :
    readADC cfg channel hi lo = (hi &&& 0x0F) * 256 + lo := by
  have hn : hi &&& 0x0F ≤ 0x0F := Nat.and_le_right
  have hs : (hi &&& 0x0F) <<< 8 = (hi &&& 0x0F) * 256 := by
    rw [Nat.shiftLeft_eq]
  have hor : (hi &&& 0x0F) * 256 ||| lo = (hi &&& 0x0F) * 256 + lo := by
    have := Nat.mul_add_lt_is_or (i := 8) (b := lo) (by omega) (hi &&& 0x0F)
    rw [Nat.mul_comm] at this
    exact this.symm
  have hin : (hi &&& 0x0F) * 256 % 2 ^ 32 = (hi &&& 0x0F) * 256 := Nat.mod_eq_of_lt (by omega)
  unfold readADC
  split_ifs
  · simp only [hs, hin, hor]
    exact Nat.mod_eq_of_lt (by omega)
  · simp only [hs, hin]
    exact Nat.mod_eq_of_lt (by omega)

/-- C8: for every high byte `hi` and low byte `lo`, `readADC` returns
`(hi AND 0x0F) * 256 + lo`, a value in 0..4095 that does not depend on the
upper four bits of `hi`; the OR back end and the addition back end return the
same value; and for the bytes 0x0F, 0xFF the result is 0xFFF = 4095. -/
theorem C8_readADC (cfg : EmonConfig) (channel hi lo : Nat) (hlo : lo < 256) :
    readADC cfg channel hi lo = (hi &&& 0x0F) * 256 + lo ∧
    readADC cfg channel hi lo ≤ 4095 ∧
    (∀ hi2, hi2 &&& 0x0F = hi &&& 0x0F →
      readADC cfg channel hi2 lo = readADC cfg channel hi lo) ∧
    readADC { cfg with I2C_USE_BRZO := true } channel hi lo
      = readADC { cfg with I2C_USE_BRZO := false } channel hi lo ∧
    readADC cfg channel 0x0F 0xFF = 0xFFF := by
  have hn : hi &&& 0x0F ≤ 0x0F := Nat.and_le_right
  refine ⟨readADC_eq cfg channel hi lo hlo, ?_, ?_, ?_, ?_⟩
  · rw [readADC_eq cfg channel hi lo hlo]
    omega
  · intro hi2 h2
    rw [readADC_eq cfg channel hi lo hlo, readADC_eq cfg channel hi2 lo hlo, h2]
  · rw [readADC_eq _ channel hi lo hlo, readADC_eq _ channel hi lo hlo]
  · rw [readADC_eq cfg channel 0x0F 0xFF (by decide)]
    decide

/-- C8 at the bytes 0xAB, 0xCD on the `Wire` back end: the sample is 0xBCD,
the same as for the bytes 0x0B, 0xCD. -/
theorem C8_readADC_witness :
    (0xCD : Nat) < 256 ∧
    readADC allOn 0 0xAB 0xCD = (0xAB &&& 0x0F) * 256 + 0xCD ∧
    readADC allOn 0 0x0B 0xCD = readADC allOn 0 0xAB 0xCD :=
  have h := C8_readADC allOn 0 0xAB 0xCD (by decide)
  ⟨by decide, h.1, h.2.2.1 0x0B (by decide)⟩

end EmonADC121Sensor

/-! ## Theorems: BMX280 re-initialisation -/

namespace BMX280Sensor

/-- C9, counterexample: on a fresh driver with the default settings, a
`begin()` whose discovery returns 0 leaves the driver not dirty; a later
`begin()`, even with a device now answering at 0x76, returns the same state
and makes no second discovery call. -/
theorem C9_no_address_counterexample :
    (begin ⟨1, 1, 1, 1⟩ 0 0 (fresh 0 0))._dirty = false ∧
    (begin ⟨1, 1, 1, 1⟩ 0 0 (fresh 0 0)).calls = [ExtCall.beginI2C 0] ∧
    begin ⟨1, 1, 1, 1⟩ 0x76 0x60 (begin ⟨1, 1, 1, 1⟩ 0 0 (fresh 0 0))
      = begin ⟨1, 1, 1, 1⟩ 0 0 (fresh 0 0) ∧
    (begin ⟨1, 1, 1, 1⟩ 0x76 0x60 (begin ⟨1, 1, 1, 1⟩ 0 0 (fresh 0 0))).calls
      = [ExtCall.beginI2C 0] := by
  simp [begin, fresh]

/-- C9, amended: when discovery returns 0, `begin()` on a dirty driver ends
with the dirty flag cleared, chip 0 and address 0, having made the discovery
call and nothing else; every later `begin()` returns that state unchanged,
whatever discovery and identification would answer. -/
theorem C9_no_address_clears_dirty (cfg : BMX280Config) (chipId : Nat) (s : BMX280Sensor)
    (hd : s._dirty = true) :
    begin cfg 0 chipId s
      = { s with _dirty := false, _chip := 0, _address := 0,
                 calls := s.calls ++ [ExtCall.beginI2C s._address] } ∧
    ∀ found2 chipId2, begin cfg found2 chipId2 (begin cfg 0 chipId s) = begin cfg 0 chipId s := by
  have h : begin cfg 0 chipId s
      = { s with _dirty := false, _chip := 0, _address := 0,
                 calls := s.calls ++ [ExtCall.beginI2C s._address] } := by
    simp [begin, hd]
  refine ⟨h, fun found2 chipId2 => ?_⟩
  rw [h]
  simp [begin]

/-- C9, amended, on a fresh driver with the default settings. -/
theorem C9_no_address_clears_dirty_witness :
    (fresh 0 0)._dirty = true ∧
    begin ⟨1, 1, 1, 1⟩ 0x76 0x60 (begin ⟨1, 1, 1, 1⟩ 0 0 (fresh 0 0))
      = begin ⟨1, 1, 1, 1⟩ 0 0 (fresh 0 0) :=
  ⟨rfl, (C9_no_address_clears_dirty ⟨1, 1, 1, 1⟩ 0 (fresh 0 0) rfl).2 0x76 0x60⟩

/-- C10, the code at the failing input: default settings, a first `begin()`
identifies a BME280 at 0x76 (count 3); the address is changed to 0x77 and
`begin()` runs again. Identifying a BME280 again gives count 6 although three
magnitudes are enabled, and `type(3)` is NONE; identifying a BMP280 gives
count 5 although two magnitudes are enabled. -/
theorem C10_rebegin_accumulates_count :
    (begin ⟨1, 1, 1, 1⟩ 0x76 0x60 (fresh 0 0)).count = 3 ∧
    (begin ⟨1, 1, 1, 1⟩ 0x77 0x60
      (setAddress 0x77 (begin ⟨1, 1, 1, 1⟩ 0x76 0x60 (fresh 0 0))))._chip = BMX280_CHIP_BME280 ∧
    (begin ⟨1, 1, 1, 1⟩ 0x77 0x60
      (setAddress 0x77 (begin ⟨1, 1, 1, 1⟩ 0x76 0x60 (fresh 0 0)))).count = 6 ∧
    enabledCount ⟨1, 1, 1, 1⟩ BMX280_CHIP_BME280 = 3 ∧
    (type ⟨1, 1, 1, 1⟩ (begin ⟨1, 1, 1, 1⟩ 0x77 0x60
      (setAddress 0x77 (begin ⟨1, 1, 1, 1⟩ 0x76 0x60 (fresh 0 0)))) 3).2 = Magnitude.NONE ∧
    (begin ⟨1, 1, 1, 1⟩ 0x77 0x58
      (setAddress 0x77 (begin ⟨1, 1, 1, 1⟩ 0x76 0x60 (fresh 0 0)))).count = 5 ∧
    enabledCount ⟨1, 1, 1, 1⟩ BMX280_CHIP_BMP280 = 2 := by
  simp [begin, _init, fresh, setAddress, type, count, enabledCount, BMX280_CHIP_BME280,
    BMX280_CHIP_BMP280]

end BMX280Sensor

/-! ## Theorems: idempotent setup -/

namespace BMX280Sensor

/-- The method `_init()` does not touch the dirty flag. -/
theorem _init_dirty (cfg : BMX280Config) (chipId : Nat) (s : BMX280Sensor) :
    (_init cfg chipId s)._dirty = s._dirty := by
  simp only [_init]
  split_ifs <;> rfl

/-- After `begin()` the BMX280 driver is never dirty. -/
theorem bmx_begin_dirty (cfg : BMX280Config) (found chipId : Nat) (s : BMX280Sensor) :
    (begin cfg found chipId s)._dirty = false := by
  unfold begin
  by_cases hd : s._dirty = true
  · simp only [hd, Bool.not_true, Bool.false_eq_true, if_false]
    split_ifs
    · rfl
    · rw [_init_dirty]
  · simp only [Bool.not_eq_true] at hd
    simp [hd]

end BMX280Sensor

namespace EmonADC121Sensor

/-- After `begin()` the EmonADC121 driver is not dirty, provided the base-class
`begin()` leaves the dirty flag alone. -/
theorem emon_begin_dirty (parentBegin : EmonSensor → EmonSensor)
    (hpb : ∀ b, (parentBegin b)._dirty = b._dirty) (found : Nat) (s : EmonADC121Sensor) :
    (begin parentBegin found s)._dirty = false := by
  unfold begin
  by_cases hd : s._dirty = true
  · simp only [hd, Bool.not_true, Bool.false_eq_true, if_false]
    split_ifs
    · rfl
    · simp [hpb]
  · simp only [Bool.not_eq_true] at hd
    simp [hd]

end EmonADC121Sensor

/-- C11: for both drivers, `begin()` on a state whose dirty flag is false
returns that state with every field unchanged, the log of external calls
included (no discovery call, no bus access); hence a second `begin()` right
after a first one returns the state the first one left, whatever discovery and
identification would answer (for the EmonADC121 driver, given that the
base-class `begin()` leaves the dirty flag alone). -/
theorem C11_begin_idempotent (cfg : BMX280Config) (parentBegin : EmonSensor → EmonSensor)
    (found chipId found2 chipId2 efound efound2 : Nat)
    (sb : BMX280Sensor) (se : EmonADC121Sensor) :
    (sb._dirty = false → BMX280Sensor.begin cfg found chipId sb = sb) ∧
    (se._dirty = false → EmonADC121Sensor.begin parentBegin efound se = se) ∧
    BMX280Sensor.begin cfg found2 chipId2 (BMX280Sensor.begin cfg found chipId sb)
      = BMX280Sensor.begin cfg found chipId sb ∧
    ((∀ b, (parentBegin b)._dirty = b._dirty) →
      EmonADC121Sensor.begin parentBegin efound2 (EmonADC121Sensor.begin parentBegin efound se)
        = EmonADC121Sensor.begin parentBegin efound se) := by
  have hb : ∀ s : BMX280Sensor, s._dirty = false →
      ∀ f c, BMX280Sensor.begin cfg f c s = s := by
    intro s h f c
    simp [BMX280Sensor.begin, h]
  have he : ∀ s : EmonADC121Sensor, s._dirty = false →
      ∀ f, EmonADC121Sensor.begin parentBegin f s = s := by
    intro s h f
    simp [EmonADC121Sensor.begin, h]
  exact ⟨fun h => hb sb h _ _, fun h => he se h _,
    hb _ (BMX280Sensor.bmx_begin_dirty cfg found chipId sb) _ _,
    fun hpb => he _ (EmonADC121Sensor.emon_begin_dirty parentBegin hpb efound se) _⟩

/-- C11 on a BMX280 driver that identified a BME280 at 0x76 and an EmonADC121
driver that found 0x50: a further `begin()` changes nothing. -/
theorem C11_begin_idempotent_witness :
    (BMX280Sensor.begin ⟨1, 1, 1, 1⟩ 0x76 0x60 (BMX280Sensor.fresh 0 0))._dirty = false ∧
    BMX280Sensor.begin ⟨1, 1, 1, 1⟩ 0x77 0x58
        (BMX280Sensor.begin ⟨1, 1, 1, 1⟩ 0x76 0x60 (BMX280Sensor.fresh 0 0))
      = BMX280Sensor.begin ⟨1, 1, 1, 1⟩ 0x76 0x60 (BMX280Sensor.fresh 0 0) ∧
    EmonADC121Sensor.begin id 0x51
        (EmonADC121Sensor.begin id 0x50 (EmonADC121Sensor.fresh EmonADC121Sensor.allOn 230))
      = EmonADC121Sensor.begin id 0x50 (EmonADC121Sensor.fresh EmonADC121Sensor.allOn 230) :=
  have hd := BMX280Sensor.bmx_begin_dirty ⟨1, 1, 1, 1⟩ 0x76 0x60 (BMX280Sensor.fresh 0 0)
  have h := C11_begin_idempotent ⟨1, 1, 1, 1⟩ id 0x77 0x58 0 0 0x50 0x51
    (BMX280Sensor.begin ⟨1, 1, 1, 1⟩ 0x76 0x60 (BMX280Sensor.fresh 0 0))
    (EmonADC121Sensor.fresh EmonADC121Sensor.allOn 230)
  ⟨hd, h.1 hd, h.2.2.2 (fun _ => rfl)⟩

/-! ## Theorems: BMX280 kind and value agree -/

namespace BMX280Sensor

/-- C12: for every setting, chip, count and index, `value(index)` sets the
error to OK exactly when `type(index)` returns a kind other than NONE; for
TEMPERATURE it performs the temperature read and returns its result, for
PRESSURE the pressure read divided by 100, for HUMIDITY the humidity read;
when `type(index)` is NONE both set OUT_OF_RANGE, and `value` returns 0 without
a sensor read. -/
theorem C12_type_value_agree (cfg : BMX280Config) (bme : BME280Readings) (s : BMX280Sensor)
    (index : Nat) :
    ((value cfg bme s index).1._error = SensorError.OK ↔
      (type cfg s index).2 ≠ Magnitude.NONE) ∧
    ((type cfg s index).1._error = SensorError.OK ↔
      (type cfg s index).2 ≠ Magnitude.NONE) ∧
    ((type cfg s index).2 = Magnitude.TEMPERATURE →
      (value cfg bme s index).2 = bme.readTempC ∧
      (value cfg bme s index).1.calls = s.calls ++ [ExtCall.readTempC]) ∧
    ((type cfg s index).2 = Magnitude.PRESSURE →
      (value cfg bme s index).2 = bme.readFloatPressure / 100 ∧
      (value cfg bme s index).1.calls = s.calls ++ [ExtCall.readFloatPressure]) ∧
    ((type cfg s index).2 = Magnitude.HUMIDITY →
      (value cfg bme s index).2 = bme.readFloatHumidity ∧
      (value cfg bme s index).1.calls = s.calls ++ [ExtCall.readFloatHumidity]) ∧
    ((type cfg s index).2 = Magnitude.NONE →
      (type cfg s index).1._error = SensorError.OUT_OF_RANGE ∧
      (value cfg bme s index).1._error = SensorError.OUT_OF_RANGE ∧
      (value cfg bme s index).2 = 0 ∧
      (value cfg bme s index).1.calls = s.calls) ∧
    ((type cfg s index).2 = Magnitude.NONE ∨ (type cfg s index).2 = Magnitude.TEMPERATURE ∨
      (type cfg s index).2 = Magnitude.PRESSURE ∨ (type cfg s index).2 = Magnitude.HUMIDITY) := by
  simp only [type, value]
  split_ifs <;> simp

end BMX280Sensor

/-! ## Theorems: EmonADC121 values -/

namespace EmonADC121Sensor

/-- At most three report flags can be enabled. -/
theorem magnitudes_le (cfg : EmonConfig) : magnitudes cfg ≤ 3 := by
  unfold magnitudes
  split_ifs <;> omega

/-- C13: when `_magnitudes` is the number of enabled report flags, for every
index below that number `value(index)` sets the error to OK, changes nothing
else, and returns the channel-0 quantity of the kind `type(index)` gives: the
stored current for CURRENT, the stored current times the configured voltage for
POWER_APPARENT, the energy accumulator for ENERGY. -/
theorem C13_value_by_kind (cfg : EmonConfig) (s : EmonADC121Sensor) (index : Nat)
    (hm : s._magnitudes = magnitudes cfg) (hi : index < magnitudes cfg) :
    value cfg s index
      = some ({ s with _error := SensorError.OK }, quantity s (type cfg s index).2) ∧
    (type cfg s index).1._error = SensorError.OK ∧
    ((type cfg s index).2 = Magnitude.CURRENT ∨
      (type cfg s index).2 = Magnitude.POWER_APPARENT ∨
      (type cfg s index).2 = Magnitude.ENERGY) := by
  have h3 : index < 3 := lt_of_lt_of_le hi (magnitudes_le cfg)
  rcases cfg with ⟨c, p, e, b⟩
  interval_cases index <;> cases c <;> cases p <;> cases e <;>
    simp [magnitudes] at hm hi <;>
    simp [value, type, quantity, hm, channelGet, ADC121_CHANNELS]

/-- C13 at index 1 of the example driver after its first poll (2 A at 230 V):
the value is the apparent power, current times voltage. -/
theorem C13_value_by_kind_witness :
    (afterFirstPoll id)._magnitudes = magnitudes allOn ∧ 1 < magnitudes allOn ∧
    (value allOn (afterFirstPoll id) 1).map (fun r => r.2)
      = some ((afterFirstPoll id)._current0 * (afterFirstPoll id)._voltage) := by
  have hm : (afterFirstPoll id)._magnitudes = magnitudes allOn := by
    simp [afterFirstPoll, pre, begin, fresh, allOn]
  have h := (C13_value_by_kind allOn (afterFirstPoll id) 1 hm (by decide)).1
  refine ⟨hm, by decide, ?_⟩
  rw [h]
  simp [type, allOn, quantity]

/-! ## Theorems: EmonADC121 energy monotonicity -/

/-- A poll never changes the configured voltage. -/
theorem pre_voltage (cfg : EmonConfig) (sample : ℚ) (now1 now2 : Nat) (s : EmonADC121Sensor) :
    (pre cfg sample now1 now2 s)._voltage = s._voltage := by
  simp only [pre]
  split_ifs <;> rfl

/-- With a non-negative sample and voltage one poll does not decrease the
energy accumulator. -/
theorem pre_energy_mono (cfg : EmonConfig) (sample : ℚ) (now1 now2 : Nat)
    (s : EmonADC121Sensor) (hs : 0 ≤ sample) (hv : 0 ≤ s._voltage) :
    s._energy0 ≤ (pre cfg sample now1 now2 s)._energy0 := by
  have hd : (0 : ℚ) ≤ (usub32 now1 s.last : ℚ) := Nat.cast_nonneg _
  have hadd : 0 ≤ sample * s._voltage * (usub32 now1 s.last : ℚ) / 1000 := by positivity
  simp only [pre]
  split_ifs <;> first | exact le_refl _ | (dsimp only; linarith)

/-- A run of polls never changes the configured voltage. -/
theorem preSeq_voltage (cfg : EmonConfig) (polls : List (ℚ × Nat × Nat)) (s : EmonADC121Sensor) :
    (preSeq cfg polls s)._voltage = s._voltage := by
  induction polls generalizing s with
  | nil => rfl
  | cons p ps ih =>
    show (preSeq cfg ps (pre cfg p.1 p.2.1 p.2.2 s))._voltage = s._voltage
    rw [ih, pre_voltage]

/-- Over a run of polls with non-negative samples and voltage the energy
accumulator does not decrease. -/
theorem preSeq_energy_mono (cfg : EmonConfig) (polls : List (ℚ × Nat × Nat))
    (s : EmonADC121Sensor) (hv : 0 ≤ s._voltage) (hp : ∀ p ∈ polls, 0 ≤ p.1) :
    s._energy0 ≤ (preSeq cfg polls s)._energy0 := by
  induction polls generalizing s with
  | nil => exact le_refl _
  | cons p ps ih =>
    show s._energy0 ≤ (preSeq cfg ps (pre cfg p.1 p.2.1 p.2.2 s))._energy0
    have h1 := pre_energy_mono cfg p.1 p.2.1 p.2.2 s (hp p (List.mem_cons_self _ _)) hv
    have h2 := ih (pre cfg p.1 p.2.1 p.2.2 s) (by rw [pre_voltage]; exact hv)
      (fun q hq => hp q (List.mem_cons_of_mem _ hq))
    exact le_trans h1 h2

/-- C14: for every sequence of `pre()` calls in which the sampled currents and
the configured voltage are non-negative, and whatever the clock readings, the
channel-0 energy accumulator after each call is at least its value before that
call, and so at the end of the sequence at least its value at the start. -/
theorem C14_energy_monotone (cfg : EmonConfig) (polls : List (ℚ × Nat × Nat))
    (s : EmonADC121Sensor) (hv : 0 ≤ s._voltage) (hp : ∀ p ∈ polls, 0 ≤ p.1) :
    s._energy0 ≤ (preSeq cfg polls s)._energy0 ∧
    ∀ (before : List (ℚ × Nat × Nat)) (p : ℚ × Nat × Nat) (after : List (ℚ × Nat × Nat)),
      polls = before ++ p :: after →
      (preSeq cfg before s)._energy0
        ≤ (pre cfg p.1 p.2.1 p.2.2 (preSeq cfg before s))._energy0 := by
  refine ⟨preSeq_energy_mono cfg polls s hv hp, ?_⟩
  intro before p after hsplit
  apply pre_energy_mono
  · exact hp p (by rw [hsplit]; simp)
  · rw [preSeq_voltage]
    exact hv

/-- C14 on a driver at 230 V that found 0x50, polled with 2 A at clock 1000 and
at clock 500 (a clock that went backwards). -/
theorem C14_energy_monotone_witness :
    (begin id 0x50 (fresh allOn 230))._energy0
      ≤ (preSeq allOn [(2, 1000, 1000), (2, 500, 500)] (begin id 0x50 (fresh allOn 230)))._energy0 :=
  (C14_energy_monotone allOn [(2, 1000, 1000), (2, 500, 500)] (begin id 0x50 (fresh allOn 230))
    (by simp [begin, fresh])
    (by
      intro p hp
      simp only [List.mem_cons, List.mem_singleton, List.not_mem_nil, or_false] at hp
      rcases hp with rfl | rfl <;> norm_num)).1

end EmonADC121Sensor

/-! ## Theorems: BMX280 forced conversion and humidity gating -/

namespace BMX280Sensor

set_option maxRecDepth 100000 in
/-- Clearing the two low bits of a byte and adding 1 gives low bits 01, keeps
the upper six bits and stays within a byte. -/
theorem forced_bits (v : Nat) (hv : v < 256) :
    ((v &&& 0xFC) + 0x01) % 4 = 1 ∧ ((v &&& 0xFC) + 0x01) / 4 = v / 4 ∧
    (v &&& 0xFC) + 0x01 < 256 := by
  revert v
  decide

/-- C15: for every byte `v` read from the mode-control register, `forceRead`
reads the register, writes back `(v AND 0xFC) + 0x01`, whose two low bits are
01, whose upper six bits are those of `v` and which fits in 8 bits, and then
waits exactly the stored `_measurement_delay`; nothing else changes. -/
theorem C15_forceRead (v : Nat) (s : BMX280Sensor) (hv : v < 256) :
    (forceRead v s).calls
      = s.calls ++ [ExtCall.readCtrlMeas, ExtCall.writeCtrlMeas ((v &&& 0xFC) + 0x01),
          ExtCall.delay s._measurement_delay] ∧
    ((v &&& 0xFC) + 0x01) % 4 = 1 ∧
    ((v &&& 0xFC) + 0x01) / 4 = v / 4 ∧
    (v &&& 0xFC) + 0x01 < 256 ∧
    forceRead v s = { s with calls := (forceRead v s).calls } := by
  obtain ⟨h1, h2, h3⟩ := forced_bits v hv
  refine ⟨?_, h1, h2, h3, ?_⟩
  · simp [forceRead, Nat.mod_eq_of_lt hv, Nat.mod_eq_of_lt h3]
  · simp [forceRead]

/-- C15 at the register value 0x27 (normal mode) on a driver that identified a
BME280 with the default settings: 0x25 is written and the wait is 10 ms. -/
theorem C15_forceRead_witness :
    (0x27 : Nat) < 256 ∧
    (forceRead 0x27 (begin ⟨1, 1, 1, 1⟩ 0x76 0x60 (fresh 0 0))).calls
      = (begin ⟨1, 1, 1, 1⟩ 0x76 0x60 (fresh 0 0)).calls
        ++ [ExtCall.readCtrlMeas, ExtCall.writeCtrlMeas ((0x27 &&& 0xFC) + 0x01),
          ExtCall.delay (begin ⟨1, 1, 1, 1⟩ 0x76 0x60 (fresh 0 0))._measurement_delay] ∧
    (0x27 &&& 0xFC) + 0x01 = 0x25 :=
  ⟨by decide, (C15_forceRead 0x27 (begin ⟨1, 1, 1, 1⟩ 0x76 0x60 (fresh 0 0)) (by decide)).1,
    by decide⟩

/-- C16: in every BMX280 driver state whose identified chip is not a BME280,
for every setting, count and index, `type(index)` is never HUMIDITY,
`value(index)` performs no read or a temperature read or a pressure read, never
a humidity read, and `measurementTime()` leaves the humidity term out: its
time is 1.25 plus the temperature and pressure terms, and its value and its
double sum are those of the same settings with humidity disabled. -/
theorem C16_humidity_only_on_bme280 (cfg : BMX280Config) (bme : BME280Readings)
    (s : BMX280Sensor) (index : Nat) (hc : s._chip ≠ BMX280_CHIP_BME280) :
    (type cfg s index).2 ≠ Magnitude.HUMIDITY ∧
    ((value cfg bme s index).1.calls = s.calls ∨
      (value cfg bme s index).1.calls = s.calls ++ [ExtCall.readTempC] ∨
      (value cfg bme s index).1.calls = s.calls ++ [ExtCall.readFloatPressure]) ∧
    (value cfg bme s index).1.calls ≠ s.calls ++ [ExtCall.readFloatHumidity] ∧
    measurementT cfg s
      = 1.25 + (if cfg.BMX280_TEMPERATURE > 0 then 2.3 * (cfg.BMX280_TEMPERATURE : ℚ) else 0)
          + (if cfg.BMX280_PRESSURE > 0 then 2.3 * (cfg.BMX280_PRESSURE : ℚ) + 0.575 else 0) ∧
    measurementTime cfg s = measurementTime { cfg with BMX280_HUMIDITY := 0 } s ∧
    measurementTd cfg s = measurementTd { cfg with BMX280_HUMIDITY := 0 } s := by
  have hd : decide (s._chip = BMX280_CHIP_BME280) = false := by simp [hc]
  have hT : measurementTd cfg s = measurementTd { cfg with BMX280_HUMIDITY := 0 } s := by
    simp only [measurementTd, hd]
    exact measurementTdOf_no_humidity _ _ _
  refine ⟨?_, ?_, ?_, ?_, ?_, hT⟩
  · simp only [type]
    split_ifs <;> simp_all
  · simp only [value]
    split_ifs <;> simp_all
  · simp only [value]
    split_ifs <;> simp_all
  · simp only [measurementT, hc, if_false]
    split_ifs <;> simp
  · simp only [measurementTime, hT]

/-- C16 on a driver that identified a BMP280 with the default settings: index 2
has no kind and no humidity read happens. -/
theorem C16_humidity_only_on_bme280_witness :
    (begin ⟨1, 1, 1, 1⟩ 0x76 0x58 (fresh 0 0))._chip ≠ BMX280_CHIP_BME280 ∧
    (type ⟨1, 1, 1, 1⟩ (begin ⟨1, 1, 1, 1⟩ 0x76 0x58 (fresh 0 0)) 2).2 ≠ Magnitude.HUMIDITY ∧
    (value ⟨1, 1, 1, 1⟩ ⟨20, 101325, 40⟩ (begin ⟨1, 1, 1, 1⟩ 0x76 0x58 (fresh 0 0)) 2).1.calls
      ≠ (begin ⟨1, 1, 1, 1⟩ 0x76 0x58 (fresh 0 0)).calls ++ [ExtCall.readFloatHumidity] :=
  have hc : (begin ⟨1, 1, 1, 1⟩ 0x76 0x58 (fresh 0 0))._chip ≠ BMX280_CHIP_BME280 := by
    rw [begin_chip_of_identified ⟨1, 1, 1, 1⟩ 0x76 0x58 (fresh 0 0) rfl (by decide) (Or.inl rfl)]
    decide
  have h := C16_humidity_only_on_bme280 ⟨1, 1, 1, 1⟩ ⟨20, 101325, 40⟩
    (begin ⟨1, 1, 1, 1⟩ 0x76 0x58 (fresh 0 0)) 2 hc
  ⟨hc, h.1, h.2.2.1⟩

end BMX280Sensor

/-! ## Theorems: EmonADC121 boundary cases -/

namespace EmonADC121Sensor

/-- C17: with energy reporting on and no stored timestamp, a first `pre()` at
which the clock reads exactly 0 stores the timestamp 0, and a second `pre()` at
clock 1000 with positive current and voltage adds nothing to the energy
accumulator, although current times voltage times 1000 ms over 1000 is
positive. -/
theorem C17_zero_timestamp_skips (cfg : EmonConfig) (s : EmonADC121Sensor) (c0 c1 : ℚ)
    (he : cfg.EMON_REPORT_ENERGY = true) (ha : s._address ≠ 0) (hl : s.last = 0)
    (hc : 0 < c1) (hv : 0 < s._voltage) :
    (pre cfg c0 0 0 s).last = 0 ∧
    (pre cfg c1 1000 1000 (pre cfg c0 0 0 s))._energy0 = (pre cfg c0 0 0 s)._energy0 ∧
    (pre cfg c1 1000 1000 (pre cfg c0 0 0 s))._energy0 = s._energy0 ∧
    0 < c1 * (pre cfg c0 0 0 s)._voltage * ((1000 : Nat) : ℚ) / 1000 := by
  obtain ⟨hl1, _, hv1⟩ := pre_last cfg c0 0 0 s he ha
  have hl0 : (pre cfg c0 0 0 s).last = 0 := by rw [hl1]; rfl
  have h1 := pre_energy_of_last_zero cfg c0 0 0 s hl
  have h2 := pre_energy_of_last_zero cfg c1 1000 1000 (pre cfg c0 0 0 s) hl0
  refine ⟨hl0, h2, by rw [h2, h1], ?_⟩
  rw [hv1]
  positivity

/-- C17 on a driver at 230 V that found 0x50, polled with 2 A at clock 0 and
at clock 1000: the accumulator is still what `begin()` left. -/
theorem C17_zero_timestamp_skips_witness :
    (pre allOn 2 1000 1000 (pre allOn 2 0 0 (begin id 0x50 (fresh allOn 230))))._energy0
      = (begin id 0x50 (fresh allOn 230))._energy0 :=
  (C17_zero_timestamp_skips allOn (begin id 0x50 (fresh allOn 230)) 2 2 rfl
    (by simp [begin, fresh]) (by rw [begin_last]; rfl) (by norm_num)
    (by simp [begin, fresh])).2.2.1

/-- C19: when `_magnitudes` is the number of enabled report flags and at least
one flag is enabled, for every index `value(index)` has a defined result, and
whenever it answers with error OK (a stored current, power or energy reading)
the channel it indexes with, `index / _magnitudes`, is 0, below the single
declared channel; with `_magnitudes = 0` the division is by zero and `value`
has no defined result. -/
theorem C19_channel_in_bounds (cfg : EmonConfig) (s : EmonADC121Sensor) (index : Nat)
    (hm : s._magnitudes = magnitudes cfg) (hpos : 1 ≤ magnitudes cfg) :
    (∀ r, value cfg s index = some r → r.1._error = SensorError.OK →
        index / s._magnitudes = 0 ∧ index / s._magnitudes < ADC121_CHANNELS) ∧
    (value cfg s index).isSome = true ∧
    ∀ (s0 : EmonADC121Sensor) (i0 : Nat), s0._magnitudes = 0 → value cfg s0 i0 = none := by
  refine ⟨?_, ?_, ?_⟩
  · intro r hr hok
    rcases cfg with ⟨c, p, e, b⟩
    rcases index with _ | _ | _ | n <;> cases c <;> cases p <;> cases e <;>
      simp [magnitudes] at hm hpos <;>
      simp [value, hm, channelGet, ADC121_CHANNELS] at hr ⊢ <;>
      (try (rw [← hr] at hok; simp at hok))
  · rcases cfg with ⟨c, p, e, b⟩
    rcases index with _ | _ | _ | n <;> cases c <;> cases p <;> cases e <;>
      simp [magnitudes] at hm hpos <;>
      simp [value, hm, channelGet, ADC121_CHANNELS]
  · intro s0 i0 h0
    simp [value, h0]

/-- C19 at index 2 of the example driver with all three report flags on. -/
theorem C19_channel_in_bounds_witness :
    (afterFirstPoll id)._magnitudes = magnitudes allOn ∧ 1 ≤ magnitudes allOn ∧
    (value allOn (afterFirstPoll id) 2).isSome = true ∧
    value allOn { afterFirstPoll id with _magnitudes := 0 } 2 = none :=
  have hm : (afterFirstPoll id)._magnitudes = magnitudes allOn := by
    simp [afterFirstPoll, pre, begin, fresh, allOn]
  have h := C19_channel_in_bounds allOn (afterFirstPoll id) 2 hm (by decide)
  ⟨hm, by decide, h.2.1, h.2.2 _ 2 rfl⟩

/-- C20: for every stored timestamp `0 < last < 2^32` and every true elapsed
time `d < 2^32`, when the 32-bit clock reads `(last + d) mod 2^32` the elapsed
time used by `pre()` is `d`, and a poll that samples with energy reporting on
adds current times voltage times `d` over 1000, wrapped clock or not. -/
theorem C20_wraparound (cfg : EmonConfig) (s : EmonADC121Sensor) (sample : ℚ) (d now2 : Nat)
    (he : cfg.EMON_REPORT_ENERGY = true) (ha : s._address ≠ 0)
    (hpos : 0 < s.last) (hl : s.last < 2 ^ 32) (hd : d < 2 ^ 32) :
    usub32 ((s.last + d) % 2 ^ 32) s.last = d ∧
    (pre cfg sample ((s.last + d) % 2 ^ 32) now2 s)._energy0
      = s._energy0 + sample * s._voltage * (d : ℚ) / 1000 := by
  have hu := usub32_add s.last d hl hd
  refine ⟨hu, ?_⟩
  rw [pre_energy_of_last_pos cfg sample _ now2 s he ha hpos, hu]

/-- C20 across a wrap: timestamp `2^32 - 500` stored, the clock then reads 500,
1000 ms later; with 2 A at 230 V the poll adds 2 * 230 * 1000 / 1000. -/
theorem C20_wraparound_witness :
    (4294966796 + 1000) % 2 ^ 32 = 500 ∧
    (pre allOn 2 500 500
        (pre allOn 2 4294966796 4294966796 (begin id 0x50 (fresh allOn 230))))._energy0
      = (pre allOn 2 4294966796 4294966796 (begin id 0x50 (fresh allOn 230)))._energy0
        + 2 * 230 * ((1000 : Nat) : ℚ) / 1000 := by
  have ha0 : (begin id 0x50 (fresh allOn 230))._address ≠ 0 := by simp [begin, fresh]
  obtain ⟨hl1, ha1, hv1⟩ := pre_last allOn 2 4294966796 4294966796
    (begin id 0x50 (fresh allOn 230)) rfl ha0
  have hl2 : (pre allOn 2 4294966796 4294966796 (begin id 0x50 (fresh allOn 230))).last
      = 4294966796 := by rw [hl1]; norm_num
  have hv2 : (pre allOn 2 4294966796 4294966796 (begin id 0x50 (fresh allOn 230)))._voltage
      = 230 := by
    rw [hv1]
    simp [begin, fresh]
  have h := (C20_wraparound allOn
    (pre allOn 2 4294966796 4294966796 (begin id 0x50 (fresh allOn 230)))
    2 1000 500 rfl (by rw [ha1]; exact ha0) (by rw [hl2]; norm_num) (by rw [hl2]; norm_num)
    (by norm_num)).2
  rw [hl2, hv2] at h
  exact ⟨by norm_num, h⟩

end EmonADC121Sensor

end Espurna
